import Mathlib

/-!
The scripting-host entry points of memoryjs, `lib/memoryjs.cc`.

A shallow embedding of the functions that `lib/memoryjs.cc` exports to the
scripting host (`openProcess`, `closeProcess`, `findModule`, `readMemory`,
`writeMemory`, `findPattern`), followed by theorems about them.

Conventions of the embedding:

* a call is a list of host values (`args`); `args[i]` past the end is
  `undefined`, as in the host API;
* an entry point yields an `Outcome`: the exception it threw, the value it set
  as return value, the callback invocation it made, if any, and whether it
  stopped the process by calling a callback with an argument never assigned;
* every call of a memory primitive is recorded, in order, in a list of `MemOp`;
* machine integers are `Nat`/`Int` with explicit reductions modulo `2 ^ w`;
* a C string is a list of bytes; `cstr` cuts a buffer at its first zero byte,
  which is what `strcmp`, `c_str()` and `String::NewFromUtf8` see of it.
-/

set_option autoImplicit false

namespace MemoryJs

/-! ## Host values -/

/-- A host number (an IEEE-754 double). A finite double is a dyadic rational and
is written `finite m e` for the value `m * 2 ^ e`; numbers built from a C++
integer `n` are `finite n 0`. -/
inductive JsNumber where
  | finite (mantissa : Int) (exponent : Int)
  | nan
  | posInf
  | negInf
deriving DecidableEq

/-- A value of the scripting host. A string is represented by its UTF-8 bytes (what
`String::Utf8Value` yields for it); a function by an identifier. -/
inductive JsValue where
  | undefined
  | null
  | boolean (b : Bool)
  | number (n : JsNumber)
  | string (utf8 : List Nat)
  | function (id : Nat)
  | object (fields : List (String × JsValue))
  | array (items : List JsValue)

/-- The bytes of an ASCII literal of the source, which are also the UTF-8 bytes of
the host string that `String::NewFromUtf8` builds from the literal. -/
def lit (s : String) : List Nat := s.data.map Char.toNat

/-- The C string held in a buffer: the bytes before the first zero byte. -/
def cstr (buf : List Nat) : List Nat := buf.takeWhile (fun b => b != 0)

/-- The number of a C++ integer that a double represents exactly. -/
def JsNumber.ofInt (n : Int) : JsNumber := .finite n 0

/-- Truncation toward zero of a number; `0` for NaN and the infinities. -/
def JsNumber.truncate : JsNumber → Int
  | .finite m e => if 0 ≤ e then m * 2 ^ e.toNat else Int.tdiv m (2 ^ (-e).toNat)
  | _ => 0

/-- The host conversion `ToUint32`: truncate, then reduce modulo `2 ^ 32`. -/
def JsNumber.toUint32 (x : JsNumber) : Nat := (x.truncate % 2 ^ 32).toNat

/-- The host conversion `ToInt32`: `ToUint32` read as a signed 32-bit integer. -/
def JsNumber.toInt32 (x : JsNumber) : Int :=
  if x.toUint32 < 2 ^ 31 then (x.toUint32 : Int) else (x.toUint32 : Int) - 2 ^ 32

/-- The host conversion to `int64_t`: truncation toward zero, NaN to `0`, values
outside the range to the nearest bound. -/
def JsNumber.toInt64 : JsNumber → Int
  | .nan => 0
  | .posInf => 2 ^ 63 - 1
  | .negInf => -(2 ^ 63)
  | x => max (-(2 ^ 63)) (min (2 ^ 63 - 1) x.truncate)

/-- What the embedding takes from the platform and the scripting host: the
pointer size, and the conversions that need number parsing, number printing,
user code or floating-point rounding. -/
structure Platform where
  /-- The value of `sizeof(intptr_t)`: 4 or 8. -/
  ptrBytes : Nat
  /-- The host conversion `ToNumber` on a string (given by its UTF-8 bytes). -/
  stringToNumber : List Nat → JsNumber
  /-- The host conversion `ToNumber` on a function, object or array. -/
  objectToNumber : JsValue → JsNumber
  /-- The UTF-8 bytes of `ToString` of a value that is not a string. -/
  toUtf8 : JsValue → List Nat
  /-- The double nearest to an integer of magnitude above `2 ^ 53`. -/
  roundInt : Int → JsNumber
  /-- The 32-bit pattern of the `float` a double converts to. -/
  floatBits : JsNumber → Nat
  /-- The double of the `float` with the given 32-bit pattern. -/
  floatValue : Nat → JsNumber
  /-- The 64-bit pattern of a double. -/
  doubleBits : JsNumber → Nat
  /-- The double with the given 64-bit pattern. -/
  doubleValue : Nat → JsNumber
  /-- The UTF-8 bytes of the host string that the host decodes from a byte sequence
  holding a byte that is not ASCII: valid UTF-8 sequences are kept, bytes that are
  not valid UTF-8 are replaced by U+FFFD (the bytes 239, 191, 189). -/
  decodeUtf8 : List Nat → List Nat

/-- The number built by `Number::New(isolate, n)` from a C++ integer `n`: exact up to `2 ^ 53`. -/
def Platform.numberOfInt (P : Platform) (n : Int) : JsNumber :=
  if n.natAbs ≤ 2 ^ 53 then JsNumber.ofInt n else P.roundInt n

/-- The host string that `String::NewFromUtf8` builds from a C string, given by its
UTF-8 bytes: the bytes themselves when all of them are ASCII, and what the host
decodes from them otherwise. -/
def newFromUtf8 (P : Platform) (bytes : List Nat) : List Nat :=
  if bytes.all (fun b => decide (b < 128)) then bytes else P.decodeUtf8 bytes

/-- The host test `IsString()`. -/
def JsValue.isString : JsValue → Bool
  | .string _ => true
  | _ => false

/-- The host test `IsNumber()`. -/
def JsValue.isNumber : JsValue → Bool
  | .number _ => true
  | _ => false

/-- The host test `IsFunction()`. -/
def JsValue.isFunction : JsValue → Bool
  | .function _ => true
  | _ => false

/-- The host conversion `ToNumber` (`NumberValue()`). -/
def JsValue.numberValue (P : Platform) : JsValue → JsNumber
  | .undefined => .nan
  | .null => .ofInt 0
  | .boolean b => if b then .ofInt 1 else .ofInt 0
  | .number n => n
  | .string s => P.stringToNumber s
  | v => P.objectToNumber v

/-- The host conversion `Uint32Value()`. -/
def JsValue.uint32Value (P : Platform) (v : JsValue) : Nat := (v.numberValue P).toUint32

/-- The host conversion `Int32Value()`. -/
def JsValue.int32Value (P : Platform) (v : JsValue) : Int := (v.numberValue P).toInt32

/-- The host conversion `IntegerValue()`. -/
def JsValue.integerValue (P : Platform) (v : JsValue) : Int := (v.numberValue P).toInt64

/-- The host conversion `BooleanValue()`, that is `ToBoolean`. -/
def JsValue.booleanValue : JsValue → Bool
  | .undefined => false
  | .null => false
  | .boolean b => b
  | .number (.finite m _) => m != 0
  | .number .nan => false
  | .number _ => true
  | .string s => !s.isEmpty
  | _ => true

/-- The buffer of `String::Utf8Value` built from a value. -/
def JsValue.utf8Value (P : Platform) : JsValue → List Nat
  | .string s => s
  | v => P.toUtf8 v

/-- The value of `value->Get(name)` on an object; `undefined` when there is no such
field. On a value that is not an object the source's unchecked cast to `Object` is
undefined; the embedding yields `undefined` there. -/
def JsValue.get (v : JsValue) (name : String) : JsValue :=
  match v with
  | .object fields => ((fields.find? (fun f => f.1 == name)).map (fun f => f.2)).getD .undefined
  | _ => .undefined

/-- The argument `args[i]`; `undefined` past the end of the argument list. -/
def arg (args : List JsValue) (i : Nat) : JsValue := args.getD i .undefined

/-! ## Outcomes -/

/-- What an entry point did towards its caller. An element `none` of the
callback arguments is a `Local<Value>` that was never assigned. -/
structure Outcome where
  /-- The message of the `TypeError` thrown by `memoryjs::throwError`. -/
  thrown : Option String
  /-- The value passed to `args.GetReturnValue().Set`. -/
  returned : Option JsValue
  /-- The function called by `callback->Call` and its arguments `argv`. -/
  called : Option (JsValue × List (Option JsValue))
  /-- Whether the process stopped inside the entry point: `callback->Call` was given
  an empty `Local<Value>` and dereferenced it before the callback was entered. -/
  crashed : Bool := false

/-- The source's `memoryjs::throwError(error, isolate); return;`, which throws a
`TypeError` with the given message. -/
def throwTypeError (error : String) : Outcome :=
  { thrown := some error, returned := none, called := none }

/-- The outcome of `args.GetReturnValue().Set(v)` and nothing else. -/
def returnValue (v : JsValue) : Outcome :=
  { thrown := none, returned := some v, called := none }

/-- The outcome of an entry point that returns without throwing, without setting a
return value and without calling a callback. -/
def silent : Outcome :=
  { thrown := none, returned := none, called := none }

/-- The outcome of `callback->Call(Null(isolate), argc, argv)` and nothing else. -/
def callBack (callback : JsValue) (argv : List (Option JsValue)) : Outcome :=
  { thrown := none, returned := none, called := some (callback, argv) }

/-- The outcome of an entry point that stops the process: nothing is thrown, no
return value is set and no callback is entered. -/
def crash : Outcome :=
  { thrown := none, returned := none, called := none, crashed := true }

/-- The call `callback->Call(Null(isolate), argc, argv)`: the callback is entered
with the arguments when every element of `argv` was assigned; an element never
assigned is an empty `Local<Value>`, which the call dereferences, and the process
stops before the callback is entered. -/
def invoke (callback : JsValue) (argv : List (Option JsValue)) : Outcome :=
  if argv.all Option.isSome then callBack callback argv else crash

/-! ## Process memory -/

/-- The C++ types at which `readMemory` and `writeMemory` instantiate the memory
primitives. -/
inductive CType where
  | int
  | dword
  | long
  | float
  | double
  | intptr
  | bool
  | vector3
  | vector4
deriving DecidableEq

/-- The value of `sizeof(T)` on the target (Windows: `long` has 4 bytes). -/
def CType.size (P : Platform) : CType → Nat
  | .int => 4
  | .dword => 4
  | .long => 4
  | .float => 4
  | .double => 8
  | .intptr => P.ptrBytes
  | .bool => 1
  | .vector3 => 12
  | .vector4 => 16

/-- A call of a primitive of the `memory` class. -/
inductive MemOp where
  /-- The call `Memory.readMemory<T>(handle, address)`. -/
  | read (type : CType) (handle : Nat) (address : Int)
  /-- The call `Memory.readMemoryChar(handle, address)`. -/
  | readChar (handle : Nat) (address : Int)
  /-- The call `Memory.writeMemory<T>(handle, address, value)`, with the bytes of `value`. -/
  | write (type : CType) (handle : Nat) (address : Int) (bytes : List Nat)
  /-- The call `Memory.writeMemory(handle, address, buffer, size)`. -/
  | writeBuffer (handle : Nat) (address : Int) (buffer : List Nat) (size : Nat)
deriving DecidableEq

/-- The bytes of the target processes, by handle and address. -/
abbrev Memory := Nat → Int → Nat

/-- Modelled from the spec: the read primitive of `memory.h`, which is not among the
sources ("one read of exactly `sizeof(type)` bytes"): the `size` bytes from `address` on. -/
def Memory.readBytes (mem : Memory) (handle : Nat) (address : Int) (size : Nat) : List Nat :=
  (List.range size).map (fun (i : Nat) => mem handle (address + (i : Int)))

/-- Modelled from the spec: the write primitive of `memory.h`, which is not among the
sources ("issues a single write of that many bytes at `address`"): the bytes are
stored from `address` on, every other byte is left as it is. -/
def Memory.writeBytes (mem : Memory) (handle : Nat) (address : Int) (bytes : List Nat) : Memory :=
  fun h a =>
    if h = handle ∧ address ≤ a ∧ a < address + bytes.length then
      bytes.getD (a - address).toNat 0
    else mem h a

/-- Modelled from the spec: "the target's native little-endian layout": the unsigned
integer that a list of bytes holds. -/
def leValue : List Nat → Nat
  | [] => 0
  | b :: bs => b % 256 + 256 * leValue bs

/-- Modelled from the spec: "the target's native little-endian layout": the `size`
low bytes of an unsigned integer. -/
def leBytes (size : Nat) (n : Nat) : List Nat :=
  (List.range size).map (fun i => n / 256 ^ i % 256)

/-- An unsigned `bits`-bit pattern read as a two's complement integer. -/
def toSigned (bits : Nat) (u : Nat) : Int :=
  if u % 2 ^ bits < 2 ^ (bits - 1) then ((u % 2 ^ bits : Nat) : Int)
  else ((u % 2 ^ bits : Nat) : Int) - 2 ^ bits

/-- The `bits`-bit pattern of an integer (two's complement). -/
def toUnsigned (bits : Nat) (n : Int) : Nat := (n % 2 ^ bits).toNat

/-! ## The string loop of `readMemory` -/

/-- The loop `while (true)` of the `string` branch of `readMemory`, from the state
`offset`, `chars`. `readChar a` is the byte that `Memory.readMemoryChar` returns at
address `a`; `reads` collects the addresses read. `fuel` bounds the number of
iterations; `none` means the fuel ran out before the loop left. -/
def stringLoop (readChar : Int → Nat) (address : Int) :
    Nat → Nat → List Nat → List Int → Option (List Nat × List Int)
  | 0, _, _, _ => none
  | fuel + 1, offset, chars, reads =>
    let c := readChar (address + offset)
    let chars := chars ++ [c]
    let reads := reads ++ [address + offset]
    -- break at 1 million chars
    if offset = 1000000 then some ([], reads)
    -- break at terminator
    else if c = 0 then some (chars, reads)
    else stringLoop readChar address fuel (offset + 1) chars reads

/-! ## `readMemory` -/

/-- The end of every successful branch of `readMemory`: the result goes to the
callback (after the empty error message) when there are four arguments, and is set
as return value otherwise. -/
def deliver (args : List JsValue) (result : JsValue) : Outcome :=
  if args.length = 4 then
    invoke (arg args 3) [some (.string (lit "")), some result]
  else returnValue result

/-- The bytes that `Memory.readMemory<T>(handle, address)` returns. -/
def readTyped (P : Platform) (mem : Memory) (type : CType) (handle : Nat) (address : Int) :
    List Nat :=
  mem.readBytes handle address (type.size P)

/-- The host object built from a `Vector3` (three floats `x`, `y`, `z`). -/
def vector3Object (P : Platform) (bytes : List Nat) : JsValue :=
  .object [("x", .number (P.floatValue (leValue (bytes.take 4)))),
           ("y", .number (P.floatValue (leValue ((bytes.drop 4).take 4)))),
           ("z", .number (P.floatValue (leValue ((bytes.drop 8).take 4))))]

/-- The host object built from a `Vector4` (four floats `w`, `x`, `y`, `z`). -/
def vector4Object (P : Platform) (bytes : List Nat) : JsValue :=
  .object [("w", .number (P.floatValue (leValue (bytes.take 4)))),
           ("x", .number (P.floatValue (leValue ((bytes.drop 4).take 4)))),
           ("y", .number (P.floatValue (leValue ((bytes.drop 8).take 4)))),
           ("z", .number (P.floatValue (leValue ((bytes.drop 12).take 4))))]

/-- The message of the string branch when the bound is reached. -/
def stringTooLong : String :=
  "unable to read string (no null-terminator found after 1 million chars)"

/-- The entry point `readMemory(handle, address, dataType[, callback])`. The result
is the outcome and the memory primitives called, in order; `none` only if the string
loop did not leave within 1,000,001 iterations. The line that the source prints on
the standard output is left out. On the two error paths of the callback form only
`argv[0]` is assigned, so the final `callback->Call` is given `argv[1]` unassigned. -/
def readMemory (P : Platform) (mem : Memory) (args : List JsValue) :
    Option (Outcome × List MemOp) :=
  if args.length ≠ 3 ∧ args.length ≠ 4 then
    some (throwTypeError "requires 3 arguments, or 4 arguments if a callback is being used", [])
  else if (!(arg args 0).isNumber && !(arg args 1).isNumber && !(arg args 2).isString) = true then
    some (throwTypeError
      "first and second argument must be a number, third argument must be a string", [])
  else if args.length = 4 ∧ (arg args 3).isFunction = false then
    some (throwTypeError "fourth argument must be a function", [])
  else
    let dataType := cstr ((arg args 2).utf8Value P)
    let handle := (arg args 0).uint32Value P
    let address : Int := (arg args 1).uint32Value P
    if dataType = lit "int" then
      let result := toSigned 32 (leValue (readTyped P mem .int handle address))
      some (deliver args (.number (.ofInt result)), [.read .int handle address])
    else if dataType = lit "dword" then
      let result := leValue (readTyped P mem .dword handle address)
      some (deliver args (.number (.ofInt result)), [.read .dword handle address])
    else if dataType = lit "long" then
      let result := toSigned 32 (leValue (readTyped P mem .long handle address))
      some (deliver args (.number (.ofInt result)), [.read .long handle address])
    else if dataType = lit "float" then
      let result := P.floatValue (leValue (readTyped P mem .float handle address))
      some (deliver args (.number result), [.read .float handle address])
    else if dataType = lit "double" then
      let result := P.doubleValue (leValue (readTyped P mem .double handle address))
      some (deliver args (.number result), [.read .double handle address])
    else if dataType = lit "ptr" ∨ dataType = lit "pointer" then
      let result := toSigned (8 * P.ptrBytes) (leValue (readTyped P mem .intptr handle address))
      some (deliver args (.number (P.numberOfInt result)), [.read .intptr handle address])
    else if dataType = lit "bool" ∨ dataType = lit "boolean" then
      let result := leValue (readTyped P mem .bool handle address) != 0
      some (deliver args (.boolean result), [.read .bool handle address])
    else if dataType = lit "string" ∨ dataType = lit "str" then
      match stringLoop (mem handle) ((arg args 1).integerValue P) 1000001 0 [] [] with
      | none => none
      | some (chars, reads) =>
        let ops := reads.map (MemOp.readChar handle)
        if chars.length = 0 then
          if args.length = 4 then
            some (invoke (arg args 3) [some (.string (lit stringTooLong)), none], ops)
          else some (throwTypeError stringTooLong, ops)
        else
          -- vector -> string
          some (deliver args (.string (newFromUtf8 P (cstr chars))), ops)
    else if dataType = lit "vector3" ∨ dataType = lit "vec3" then
      let result := readTyped P mem .vector3 handle address
      some (deliver args (vector3Object P result), [.read .vector3 handle address])
    else if dataType = lit "vector4" ∨ dataType = lit "vec4" then
      let result := readTyped P mem .vector4 handle address
      some (deliver args (vector4Object P result), [.read .vector4 handle address])
    else
      if args.length = 4 then
        some (invoke (arg args 3) [some (.string (lit "unexpected data type")), none], [])
      else some (throwTypeError "unexpected data type", [])

/-- Whether a byte is a continuation byte of UTF-8. -/
def isContinuation (b : Nat) : Bool := decide (128 ≤ b) && decide (b ≤ 191)

/-- The length of the well-formed UTF-8 sequence that a byte sequence begins with;
`0` when it begins with none. -/
def utf8SequenceLength : List Nat → Nat
  | [] => 0
  | b0 :: rest =>
    if b0 < 128 then 1
    else match rest with
      | [] => 0
      | b1 :: rest1 =>
        if 194 ≤ b0 ∧ b0 ≤ 223 ∧ isContinuation b1 = true then 2
        else match rest1 with
          | [] => 0
          | b2 :: rest2 =>
            if ((b0 = 224 ∧ 160 ≤ b1 ∧ b1 ≤ 191) ∨
                ((225 ≤ b0 ∧ b0 ≤ 236 ∨ b0 = 238 ∨ b0 = 239) ∧ isContinuation b1 = true) ∨
                (b0 = 237 ∧ 128 ≤ b1 ∧ b1 ≤ 159)) ∧ isContinuation b2 = true then 3
            else match rest2 with
              | [] => 0
              | b3 :: _ =>
                if ((b0 = 240 ∧ 144 ≤ b1 ∧ b1 ≤ 191) ∨
                    (241 ≤ b0 ∧ b0 ≤ 243 ∧ isContinuation b1 = true) ∨
                    (b0 = 244 ∧ 128 ≤ b1 ∧ b1 ≤ 143)) ∧
                    isContinuation b2 = true ∧ isContinuation b3 = true then 4
                else 0

/-- A UTF-8 decoder for examples, in at most `fuel` steps: well-formed sequences are
kept, every byte that begins none is replaced by U+FFFD (the bytes 239, 191, 189). -/
def sanitizeUtf8 : Nat → List Nat → List Nat
  | 0, _ => []
  | fuel + 1, bytes =>
    if bytes.length = 0 then []
    else if utf8SequenceLength bytes = 0 then
      [239, 191, 189] ++ sanitizeUtf8 fuel (bytes.drop 1)
    else
      bytes.take (utf8SequenceLength bytes) ++
        sanitizeUtf8 fuel (bytes.drop (utf8SequenceLength bytes))

/-- A platform for examples: 32-bit pointers; the conversions that the embedding
takes as parameters are trivial (floats are stored as truncated integers), except
the UTF-8 decoder. -/
def examplePlatform : Platform :=
  ⟨4, fun _ => .nan, fun _ => .nan, fun _ => lit "[object Object]", JsNumber.ofInt,
    fun x => toUnsigned 32 x.truncate, fun b => .ofInt (toSigned 32 b),
    fun x => toUnsigned 64 x.truncate, fun b => .ofInt (toSigned 64 b),
    fun bytes => sanitizeUtf8 bytes.length bytes⟩

/-! ## `writeMemory` -/

/-- The end of `writeMemory` after its dispatch: "If there is a callback, return the
error message (blank if no error)", the callback being looked for at `args[4]`. -/
def finishWrite (args : List JsValue) (error : String) : Outcome :=
  if args.length = 5 then callBack (arg args 4) [some (.string (lit error))] else silent

/-- The bytes of a `Vector3` built from the fields `x`, `y`, `z` of a host object. -/
def vector3Bytes (P : Platform) (value : JsValue) : List Nat :=
  leBytes 4 (P.floatBits ((value.get "x").numberValue P)) ++
  leBytes 4 (P.floatBits ((value.get "y").numberValue P)) ++
  leBytes 4 (P.floatBits ((value.get "z").numberValue P))

/-- The bytes of a `Vector4` built from the fields `w`, `x`, `y`, `z` of a host object. -/
def vector4Bytes (P : Platform) (value : JsValue) : List Nat :=
  leBytes 4 (P.floatBits ((value.get "w").numberValue P)) ++
  leBytes 4 (P.floatBits ((value.get "x").numberValue P)) ++
  leBytes 4 (P.floatBits ((value.get "y").numberValue P)) ++
  leBytes 4 (P.floatBits ((value.get "z").numberValue P))

/-- The entry point `writeMemory(handle, address, value, dataType)`. The result is the
outcome, the memory primitives called, and the memory afterwards. The conversion of
a double to `int`, `DWORD` or `long` truncates toward zero; C++ leaves it undefined
outside the range of the type, where the embedding reduces modulo `2 ^ 32`. -/
def writeMemory (P : Platform) (mem : Memory) (args : List JsValue) :
    Outcome × List MemOp × Memory :=
  if args.length ≠ 4 then
    (throwTypeError "requires 4 arguments", [], mem)
  else if (!(arg args 0).isNumber && !(arg args 1).isNumber && !(arg args 3).isString) = true then
    (throwTypeError
      "first and second argument must be a number, third argument must be a string", [], mem)
  else
    let dataType := cstr ((arg args 3).utf8Value P)
    let handle := (arg args 0).uint32Value P
    let address : Int := (arg args 1).uint32Value P
    let write := fun (type : CType) (bytes : List Nat) =>
      (finishWrite args "", [MemOp.write type handle address bytes],
        mem.writeBytes handle address bytes)
    if dataType = lit "int" then
      write .int (leBytes 4 (toUnsigned 32 ((arg args 2).numberValue P).truncate))
    else if dataType = lit "dword" then
      write .dword (leBytes 4 (toUnsigned 32 ((arg args 2).numberValue P).truncate))
    else if dataType = lit "long" then
      write .long (leBytes 4 (toUnsigned 32 ((arg args 2).numberValue P).truncate))
    else if dataType = lit "float" then
      write .float (leBytes 4 (P.floatBits ((arg args 2).numberValue P)))
    else if dataType = lit "double" then
      write .double (leBytes 8 (P.doubleBits ((arg args 2).numberValue P)))
    else if dataType = lit "bool" ∨ dataType = lit "boolean" then
      write .bool [if (arg args 2).booleanValue then 1 else 0]
    else if dataType = lit "string" ∨ dataType = lit "str" then
      let valueParam := (arg args 2).utf8Value P
      -- Write String, Method 2
      (finishWrite args "", [MemOp.writeBuffer handle address valueParam valueParam.length],
        mem.writeBytes handle address (valueParam.take valueParam.length))
    else if dataType = lit "vector3" ∨ dataType = lit "vec3" then
      write .vector3 (vector3Bytes P (arg args 2))
    else if dataType = lit "vector4" ∨ dataType = lit "vec4" then
      write .vector4 (vector4Bytes P (arg args 2))
    else
      if args.length = 5 then
        (callBack (arg args 4) [some (.string (lit "unexpected data type"))], [], mem)
      else (throwTypeError "unexpected data type", [], mem)

/-! ## Processes and modules -/

/-- The fields of a `PROCESSENTRY32` that the entry points use. -/
structure ProcessEntry where
  dwSize : Nat
  th32ProcessID : Nat
  cntThreads : Nat
  th32ParentProcessID : Nat
  pcPriClassBase : Int
  szExeFile : List Nat

/-- The pair `process::Pair` of a process entry and the handle opened on it. -/
structure Pair where
  process : ProcessEntry
  handle : Nat

/-- The fields of a `MODULEENTRY32` that the entry points use. -/
structure ModuleEntry where
  modBaseAddr : Nat
  modBaseSize : Nat
  szExePath : List Nat
  szModule : List Nat
  th32ProcessID : Nat
  hModule : Nat

/-- The primitives of the `process`, `module` and `pattern` classes and of the
operating system that the entry points call; their code is not among the sources,
so the embedding takes them as parameters. A primitive with an `errorMessage`
out-parameter yields the message it stored there, `none` when it stored none. -/
structure Primitives where
  /-- The call `Process.openProcess(processName, &errorMessage)`. -/
  openProcessByName : List Nat → Pair × Option String
  /-- The call `Process.openProcess(processId, &errorMessage)`. -/
  openProcessById : Nat → Pair × Option String
  /-- The call `Module.getBaseAddress(processName, processId)`. -/
  getBaseAddress : List Nat → Nat → Nat
  /-- The call `Module.findModule(moduleName, processId, &errorMessage)`; the last
  argument counts the calls made before this one, since the modules of a process
  change over time. -/
  findModule : List Nat → Int → Nat → ModuleEntry × Option String
  /-- The call `GetProcessId(handle)`. -/
  getProcessId : Nat → Nat
  /-- The call `Module.getModules(processId, &errorMessage)`. -/
  getModules : Nat → List ModuleEntry × Option String
  /-- The call `Pattern.findPattern(handle, module, signature, ...)` with the three
  numeric arguments that follow the signature. -/
  findPattern : Nat → ModuleEntry → List Nat → Nat → Nat → Nat → Nat

/-- The value of `errorMessage` after a primitive ran: what it stored, or the value
from before. -/
def setError (errorMessage : String) (stored : Option String) : String :=
  stored.getD errorMessage

/-- An attempt to open a process: a call of one overload of `Process.openProcess`. -/
inductive OpenCall where
  | byName (processName : List Nat)
  | byId (processId : Nat)
deriving DecidableEq

/-- The host object `processInfo` that `openProcess` builds. -/
def processInfo (P : Platform) (pair : Pair) (base : Nat) : JsValue :=
  .object [
    ("dwSize", .number (.ofInt (toSigned 32 pair.process.dwSize))),
    ("th32ProcessID", .number (.ofInt (toSigned 32 pair.process.th32ProcessID))),
    ("cntThreads", .number (.ofInt (toSigned 32 pair.process.cntThreads))),
    ("th32ParentProcessID", .number (.ofInt (toSigned 32 pair.process.th32ParentProcessID))),
    ("pcPriClassBase", .number (.ofInt (toSigned 32 (toUnsigned 32 pair.process.pcPriClassBase)))),
    ("szExeFile", .string (newFromUtf8 P (cstr pair.process.szExeFile))),
    ("handle", .number (.ofInt (toSigned 32 pair.handle))),
    ("modBaseAddr", .number (P.numberOfInt (base % 2 ^ 32 : Nat)))]

/-- The pair that `openProcess` holds before any primitive filled it in. -/
def Pair.unset : Pair := ⟨⟨0, 0, 0, 0, 0, []⟩, 0⟩

/-- The entry point `openProcess(target[, callback])`. The result is the outcome and
the attempts to open a process, in order. -/
def openProcess (P : Platform) (os : Primitives) (args : List JsValue) :
    Outcome × List OpenCall :=
  if args.length ≠ 1 ∧ args.length ≠ 2 then
    (throwTypeError "requires 1 argument, or 2 arguments if a callback is being used", [])
  else if (!(arg args 0).isString && !(arg args 0).isNumber) = true then
    (throwTypeError "first argument must be a string or a number", [])
  else if args.length = 2 ∧ (arg args 1).isFunction = false then
    (throwTypeError "second argument must be a function", [])
  else
    -- Define error message that may be set by the function that opens the process
    let errorMessage := ""
    let pair := Pair.unset
    let opens : List OpenCall := []
    let processName := cstr ((arg args 0).utf8Value P)
    let s1 := if (arg args 0).isString then
        (os.openProcessByName processName, opens ++ [OpenCall.byName processName])
      else ((pair, none), opens)
    let errorMessage := setError errorMessage s1.1.2
    let s2 := if (arg args 0).isNumber then
        (os.openProcessById ((arg args 0).uint32Value P),
          s1.2 ++ [OpenCall.byId ((arg args 0).uint32Value P)])
      else ((s1.1.1, none), s1.2)
    let errorMessage := setError errorMessage s2.1.2
    let pair := s2.1.1
    if errorMessage ≠ "" ∧ args.length ≠ 2 then
      (throwTypeError errorMessage, s2.2)
    else
      let base := os.getBaseAddress (cstr pair.process.szExeFile) pair.process.th32ProcessID
      let info := processInfo P pair base
      if args.length = 2 then
        (callBack (arg args 1) [some (.string (lit errorMessage)), some info], s2.2)
      else (returnValue info, s2.2)

/-- Modelled from the spec: `Process.closeProcess` of `process.h`, which is not among the
sources ("releases the OS handle"): the handle leaves the set of open handles; closing
a handle that is not open changes nothing. The primitive gives the entry point no
result. -/
def Process.closeProcess (openHandles : List Int) (handle : Int) : List Int :=
  openHandles.filter (fun h => h != handle)

/-- The entry point `closeProcess(handle)`, run with the given set of open handles.
The result is the outcome and the set of open handles afterwards. -/
def closeProcess (P : Platform) (openHandles : List Int) (args : List JsValue) :
    Outcome × List Int :=
  if args.length ≠ 1 then
    (throwTypeError "requires 1 argument", openHandles)
  else if (arg args 0).isNumber = false then
    (throwTypeError "first argument must be a number", openHandles)
  else
    (silent, Process.closeProcess openHandles ((arg args 0).int32Value P))

/-- The host object `moduleInfo` that `findModule` builds. -/
def moduleInfo (P : Platform) (module : ModuleEntry) : JsValue :=
  .object [
    ("modBaseAddr", .number (P.numberOfInt (module.modBaseAddr % 2 ^ (8 * P.ptrBytes) : Nat))),
    ("modBaseSize", .number (.ofInt (toSigned 32 module.modBaseSize))),
    ("szExePath", .string (newFromUtf8 P (cstr module.szExePath))),
    ("szModule", .string (newFromUtf8 P (cstr module.szModule))),
    ("th32ProcessID", .number (.ofInt (toSigned 32 module.th32ProcessID))),
    ("hModule", .number (P.numberOfInt (module.hModule % 2 ^ (8 * P.ptrBytes) : Nat)))]

/-- The loop `while (!strcmp(module.szExePath, ""))` of `findModule`, from the state
`module`, `errorMessage`, after `calls` calls of `Module.findModule`. `fuel` bounds
the number of tests of the loop condition; `none` means the fuel ran out before the
loop left. The result is the state at the exit and the number of calls made. -/
def retryLoop (lookup : Nat → ModuleEntry × Option String) :
    Nat → Nat → ModuleEntry → String → Option (ModuleEntry × String × Nat)
  | 0, _, _, _ => none
  | fuel + 1, calls, module, errorMessage =>
    if cstr module.szExePath = [] then
      retryLoop lookup fuel (calls + 1) (lookup calls).1 (setError errorMessage (lookup calls).2)
    else some (module, errorMessage, calls)

/-- The entry point `findModule(moduleName, processId[, callback])`, its retry loop
run with the given fuel. The result is the outcome and the number of calls of
`Module.findModule`; `none` means that the retry loop was still running when the
fuel ran out. -/
def findModule (P : Platform) (os : Primitives) (fuel : Nat) (args : List JsValue) :
    Option (Outcome × Nat) :=
  if args.length ≠ 1 ∧ args.length ≠ 2 ∧ args.length ≠ 3 then
    some (throwTypeError
      "requires 1 argument, 2 arguments, or 3 arguments if a callback is being used", 0)
  else if (!(arg args 0).isString && !(arg args 1).isNumber) = true then
    some (throwTypeError "first argument must be a string, second argument must be a number", 0)
  else if args.length = 3 ∧ (arg args 2).isFunction = false then
    some (throwTypeError "third argument must be a function", 0)
  else
    let moduleName := cstr ((arg args 0).utf8Value P)
    let lookup := os.findModule moduleName ((arg args 1).int32Value P)
    -- Define error message that may be set by the function that gets the modules
    let errorMessage := ""
    let module := (lookup 0).1
    let errorMessage := setError errorMessage (lookup 0).2
    if errorMessage ≠ "" ∧ args.length ≠ 3 then
      some (throwTypeError errorMessage, 1)
    else
      -- In case it failed to open, let's keep retrying
      match retryLoop lookup fuel 1 module errorMessage with
      | none => none
      | some (module, errorMessage, calls) =>
        let info := moduleInfo P module
        if args.length = 3 then
          some (callBack (arg args 2) [some (.string (lit errorMessage)), some info], calls)
        else some (returnValue info, calls)

/-! ## `findPattern` -/

/-- The loop over `moduleEntries` of `findPattern`: the scan of the first module
whose name is `moduleName`, or `address` unchanged when there is none. -/
def scanModules (scan : ModuleEntry → Nat) (moduleName : List Nat) (address : Nat) :
    List ModuleEntry → Nat
  | [] => address
  | entry :: entries =>
    if cstr entry.szModule = moduleName then scan entry
    else scanModules scan moduleName address entries

/-- The entry point `findPattern(handle, moduleName, signature, ...)`. The word
`uintptr_t` has `8 * P.ptrBytes` bits, so `-1` and `-2` compared with `address` are
`2 ^ (8 * P.ptrBytes) - 1` and `2 ^ (8 * P.ptrBytes) - 2`. -/
def findPattern (P : Platform) (os : Primitives) (args : List JsValue) : Outcome :=
  let word := 2 ^ (8 * P.ptrBytes)
  -- Address of findPattern result
  let address : Nat := word - 1
  -- Define error message that may be set by the function that gets the modules
  let errorMessage := ""
  let handle := (arg args 0).uint32Value P
  let modules := os.getModules (os.getProcessId handle)
  let moduleEntries := modules.1
  let errorMessage := setError errorMessage modules.2
  if errorMessage ≠ "" ∧ args.length ≠ 7 then
    throwTypeError errorMessage
  else
    let moduleName := cstr ((arg args 1).utf8Value P)
    let signature := cstr ((arg args 2).utf8Value P)
    let scan := fun (entry : ModuleEntry) =>
      os.findPattern handle entry signature ((arg args 3).uint32Value P)
        ((arg args 4).uint32Value P) ((arg args 5).uint32Value P) % word
    let address := scanModules scan moduleName address moduleEntries
    let errorMessage :=
      if errorMessage ≠ "" ∧ address = word - 1 then "unable to find module" else errorMessage
    let errorMessage :=
      if errorMessage ≠ "" ∧ address = word - 2 then "no match found" else errorMessage
    -- findPattern can be asynchronous
    if args.length = 7 then
      callBack (arg args 5) [some (.string (lit errorMessage)), some (.number (P.numberOfInt address))]
    else
      returnValue (.number (P.numberOfInt address))

/-! ## Notions used in the statements -/

/-- The single-byte reads of the string branch at offsets `0 .. n - 1`. -/
def charReads (handle : Nat) (address : Int) (n : Nat) : List MemOp :=
  (List.range n).map (fun (i : Nat) => MemOp.readChar handle (address + (i : Int)))

/-- The bytes at offsets `0 .. n - 1` from an address. -/
def bytesAt (mem : Memory) (handle : Nat) (address : Int) (n : Nat) : List Nat :=
  (List.range n).map (fun (i : Nat) => mem handle (address + (i : Int)))

/-- The memory of the examples: the bytes `A`, `B`, `C` and a zero byte at the
addresses 4096 to 4099 of every process, the byte `Z` everywhere else. -/
def exampleMemory : Memory :=
  fun _ a => if a = 4096 then 65 else if a = 4097 then 66 else if a = 4098 then 67
    else if a = 4099 then 0 else 90

/-- A memory for examples: the bytes 255, 65 and a zero byte at the addresses 4096
to 4098 of every process, zero bytes everywhere else. -/
def exampleMemoryInvalid : Memory :=
  fun _ a => if a = 4096 then 255 else if a = 4097 then 65 else 0

/-- The values for which the round trip of claim C3 holds: `Storable P mem h a tag v`
says that `v` is a value of the type named by `tag`, and, for a string, that
the bytes written at the address `a` of the process `h` in `mem` are followed by a
terminator. -/
inductive Storable (P : Platform) (mem : Memory) (h a : JsValue) : List Nat → JsValue → Prop
  /-- An integer in the range of `int` and `long`. -/
  | int (tag : List Nat) (n : Int) (htag : tag = lit "int" ∨ tag = lit "long")
      (hlo : -(2 ^ 31) ≤ n) (hhi : n < 2 ^ 31) : Storable P mem h a tag (.number (.ofInt n))
  /-- An integer in the range of `DWORD`. -/
  | dword (n : Int) (hlo : 0 ≤ n) (hhi : n < 2 ^ 32) :
      Storable P mem h a (lit "dword") (.number (.ofInt n))
  /-- A number that the platform represents as a `float`. -/
  | float (x : JsNumber) (hx : P.floatValue (P.floatBits x % 2 ^ 32) = x) :
      Storable P mem h a (lit "float") (.number x)
  /-- A number that the platform represents as a `double`. -/
  | double (x : JsNumber) (hx : P.doubleValue (P.doubleBits x % 2 ^ 64) = x) :
      Storable P mem h a (lit "double") (.number x)
  /-- A boolean. -/
  | bool (tag : List Nat) (b : Bool) (htag : tag = lit "bool" ∨ tag = lit "boolean") :
      Storable P mem h a tag (.boolean b)
  /-- A host string (its bytes are the UTF-8 of the string that the host builds from
  them) without zero byte, shorter than 1,000,000 bytes, at an address below
  `2 ^ 32`, where the byte after the bytes written is zero. -/
  | string (tag : List Nat) (s : List Nat) (htag : tag = lit "string" ∨ tag = lit "str")
      (hutf8 : newFromUtf8 P s = s)
      (hnz : ∀ b ∈ s, b ≠ 0) (hlen : s.length < 1000000)
      (haddr : a.integerValue P = a.uint32Value P)
      (hterm : mem (h.uint32Value P) (a.uint32Value P + s.length) = 0) :
      Storable P mem h a tag (.string s)
  /-- An object of three numbers `x`, `y`, `z` that the platform represents as `float`. -/
  | vector3 (tag : List Nat) (x y z : JsNumber) (htag : tag = lit "vector3" ∨ tag = lit "vec3")
      (hx : P.floatValue (P.floatBits x % 2 ^ 32) = x)
      (hy : P.floatValue (P.floatBits y % 2 ^ 32) = y)
      (hz : P.floatValue (P.floatBits z % 2 ^ 32) = z) :
      Storable P mem h a tag (.object [("x", .number x), ("y", .number y), ("z", .number z)])
  /-- An object of four numbers `w`, `x`, `y`, `z` that the platform represents as `float`. -/
  | vector4 (tag : List Nat) (w x y z : JsNumber) (htag : tag = lit "vector4" ∨ tag = lit "vec4")
      (hw : P.floatValue (P.floatBits w % 2 ^ 32) = w)
      (hx : P.floatValue (P.floatBits x % 2 ^ 32) = x)
      (hy : P.floatValue (P.floatBits y % 2 ^ 32) = y)
      (hz : P.floatValue (P.floatBits z % 2 ^ 32) = z) :
      Storable P mem h a tag
        (.object [("w", .number w), ("x", .number x), ("y", .number y), ("z", .number z)])

/-- The tag names that the dispatch of `readMemory` compares with: the ten tags of
the interface and the aliases `ptr`, `boolean`, `str`, `vec3`, `vec4`. -/
def recognizedTags : List (List Nat) :=
  [lit "int", lit "dword", lit "long", lit "float", lit "double", lit "ptr", lit "pointer",
    lit "bool", lit "boolean", lit "string", lit "str", lit "vector3", lit "vec3",
    lit "vector4", lit "vec4"]

/-- A module entry with every field empty. -/
def ModuleEntry.empty : ModuleEntry := ⟨0, 0, [], [], 0, 0⟩

/-- The primitives of the examples: every process can be opened, the process 1234
has the single module `client.dll`, no lookup by `Module.findModule` finds its
module, and no scan finds its pattern. -/
def examplePrimitives : Primitives :=
  { openProcessByName := fun name => (⟨⟨296, 1234, 1, 4, 8, name⟩, 64⟩, none)
    openProcessById := fun pid => (⟨⟨296, pid, 1, 4, 8, lit "notepad.exe"⟩, 64⟩, none)
    getBaseAddress := fun _ _ => 4194304
    findModule := fun _ _ _ => (ModuleEntry.empty, some "unable to find module")
    getProcessId := fun _ => 1234
    getModules := fun _ =>
      ([⟨268435456, 4096, lit "C:/app/client.dll", lit "client.dll", 1234, 268435456⟩], none)
    findPattern := fun _ _ _ _ _ _ => 4294967294 }

/-- A platform for examples with 64-bit pointers, otherwise as `examplePlatform`. -/
def examplePlatform64 : Platform :=
  { examplePlatform with ptrBytes := 8 }

/-- The fixed-width tags of `readMemory` with the C++ type read for each. -/
def fixedTags : List (List Nat × CType) :=
  [(lit "int", .int), (lit "dword", .dword), (lit "long", .long), (lit "float", .float),
    (lit "double", .double), (lit "ptr", .intptr), (lit "pointer", .intptr),
    (lit "bool", .bool), (lit "boolean", .bool), (lit "vector3", .vector3),
    (lit "vec3", .vector3), (lit "vector4", .vector4), (lit "vec4", .vector4)]

/-- The host object that `getProcesses` builds for one process entry. -/
def processObject (P : Platform) (entry : ProcessEntry) : JsValue :=
  .object [
    ("cntThreads", .number (.ofInt (toSigned 32 entry.cntThreads))),
    ("szExeFile", .string (newFromUtf8 P (cstr entry.szExeFile))),
    ("th32ProcessID", .number (.ofInt (toSigned 32 entry.th32ProcessID))),
    ("th32ParentProcessID", .number (.ofInt (toSigned 32 entry.th32ParentProcessID))),
    ("pcPriClassBase", .number (.ofInt (toSigned 32 (toUnsigned 32 entry.pcPriClassBase))))]

/-- The entry point `getProcesses([callback])`. Its parameter `enumeration` is what
the call `Process.getProcesses(&errorMessage)` yields: the entries returned and the
message stored in `errorMessage`, `none` when none was stored (the code of the
primitive is not among the sources). -/
def getProcesses (P : Platform) (enumeration : List ProcessEntry × Option String)
    (args : List JsValue) : Outcome :=
  if args.length > 1 then
    throwTypeError "requires either 0 arguments or 1 argument if a callback is being used"
  else if args.length = 1 ∧ (arg args 0).isFunction = false then
    throwTypeError "first argument must be a function"
  else
    -- Define error message that may be set by the function that gets the processes
    let errorMessage := ""
    let processEntries := enumeration.1
    let errorMessage := setError errorMessage enumeration.2
    if errorMessage ≠ "" ∧ args.length ≠ 1 then
      throwTypeError errorMessage
    else
      let processes := JsValue.array (processEntries.map (processObject P))
      if args.length = 1 then
        callBack (arg args 0) [some (.string (lit errorMessage)), some processes]
      else returnValue processes

/-- A process entry for examples: the process 1234, `notepad.exe`. -/
def exampleProcess : ProcessEntry := ⟨296, 1234, 1, 4, 8, lit "notepad.exe"⟩

/-- The tag names that the dispatch of `writeMemory` compares with. -/
def writeTags : List (List Nat) :=
  [lit "int", lit "dword", lit "long", lit "float", lit "double", lit "bool", lit "boolean",
    lit "string", lit "str", lit "vector3", lit "vec3", lit "vector4", lit "vec4"]

/-! ## Theorems: the string loop -/

theorem stringLoop_bound (readChar : Int → Nat) (address : Int) :
    ∀ (d offset : Nat) (chars : List Nat) (reads : List Int) (fuel : Nat),
      offset + d = 1000000 → d < fuel →
      (∀ i : Nat, offset ≤ i → i < 1000000 → readChar (address + i) ≠ 0) →
      stringLoop readChar address fuel offset chars reads =
        some ([], reads ++ (List.range' offset (d + 1)).map (fun (i : Nat) => address + (i : Int))) := by
  intro d
  induction d with
  | zero =>
    intro offset chars reads fuel hoff hfuel _
    obtain ⟨f, rfl⟩ : ∃ f, fuel = f + 1 := ⟨fuel - 1, by omega⟩
    have h1 : offset = 1000000 := by omega
    simp [stringLoop, h1]
  | succ d ih =>
    intro offset chars reads fuel hoff hfuel hnz
    obtain ⟨f, rfl⟩ : ∃ f, fuel = f + 1 := ⟨fuel - 1, by omega⟩
    have h1 : offset ≠ 1000000 := by omega
    have h2 : readChar (address + offset) ≠ 0 := hnz offset (le_refl _) (by omega)
    have h3 := ih (offset + 1) (chars ++ [readChar (address + offset)])
      (reads ++ [address + offset]) f (by omega) (by omega)
      (fun i hi hlt => hnz i (by omega) hlt)
    simp only [stringLoop, h1, h2, if_false]
    rw [h3]
    simp [List.range'_succ]

theorem stringLoop_terminator (readChar : Int → Nat) (address : Int) (k : Nat)
    (hk : k < 1000000) (hzero : readChar (address + k) = 0) :
    ∀ (d offset : Nat) (chars : List Nat) (reads : List Int) (fuel : Nat),
      offset + d = k → d < fuel →
      (∀ i : Nat, offset ≤ i → i < k → readChar (address + i) ≠ 0) →
      stringLoop readChar address fuel offset chars reads =
        some (chars ++ (List.range' offset (d + 1)).map (fun (i : Nat) => readChar (address + (i : Int))),
          reads ++ (List.range' offset (d + 1)).map (fun (i : Nat) => address + (i : Int))) := by
  intro d
  induction d with
  | zero =>
    intro offset chars reads fuel hoff hfuel _
    obtain ⟨f, rfl⟩ : ∃ f, fuel = f + 1 := ⟨fuel - 1, by omega⟩
    have h1 : offset = k := by omega
    have h2 : offset ≠ 1000000 := by omega
    subst h1
    simp [stringLoop, h2, hzero]
  | succ d ih =>
    intro offset chars reads fuel hoff hfuel hnz
    obtain ⟨f, rfl⟩ : ∃ f, fuel = f + 1 := ⟨fuel - 1, by omega⟩
    have h1 : offset ≠ 1000000 := by omega
    have h2 : readChar (address + offset) ≠ 0 := hnz offset (le_refl _) (by omega)
    have h3 := ih (offset + 1) (chars ++ [readChar (address + offset)])
      (reads ++ [address + offset]) f (by omega) (by omega)
      (fun i hi hlt => hnz i (by omega) hlt)
    simp only [stringLoop, h1, h2, if_false]
    rw [h3]
    simp [List.range'_succ]

theorem cstr_string : cstr (lit "string") = lit "string" := by decide

theorem cstr_str : cstr (lit "str") = lit "str" := by decide

/-- The bytes of a buffer that holds no zero byte and is followed by a zero byte
are the C string of the whole. -/
theorem cstr_append_zero (bytes : List Nat) (rest : List Nat) (hnz : ∀ b ∈ bytes, b ≠ 0) :
    cstr (bytes ++ 0 :: rest) = bytes := by
  induction bytes with
  | nil => simp [cstr]
  | cons b bs ih =>
    have hb : b ≠ 0 := hnz b (by simp)
    have := ih (fun c hc => hnz c (by simp [hc]))
    simp only [cstr] at this ⊢
    simp [List.takeWhile_cons, hb, this]

theorem newFromUtf8_ascii (P : Platform) (bytes : List Nat) (hascii : ∀ b ∈ bytes, b < 128) :
    newFromUtf8 P bytes = bytes := by
  have hall : bytes.all (fun b => decide (b < 128)) = true := by
    simpa [List.all_eq_true] using hascii
  simp [newFromUtf8, hall]

/-- The string branch of `readMemory` on a call that passes the argument checks. -/
theorem readMemory_string_branch (P : Platform) (mem : Memory) (h a : JsValue) (tag : List Nat)
    (rest : List JsValue) (htag : tag = lit "string" ∨ tag = lit "str")
    (hrest : rest = [] ∨ ∃ f, rest = [.function f]) :
    readMemory P mem (h :: a :: .string tag :: rest) =
      match stringLoop (mem (h.uint32Value P)) (a.integerValue P) 1000001 0 [] [] with
      | none => none
      | some (chars, reads) =>
        if chars.length = 0 then
          if rest.length = 0 then
            some (throwTypeError stringTooLong, reads.map (MemOp.readChar (h.uint32Value P)))
          else some (crash, reads.map (MemOp.readChar (h.uint32Value P)))
        else
          some (deliver (h :: a :: .string tag :: rest) (.string (newFromUtf8 P (cstr chars))),
            reads.map (MemOp.readChar (h.uint32Value P))) := by
  rcases htag with rfl | rfl <;> rcases hrest with rfl | ⟨f, rfl⟩ <;>
    simp +decide [readMemory, arg, JsValue.isString, JsValue.isFunction, JsValue.utf8Value,
      cstr_string, cstr_str, invoke]

/-- Claim C1, evaluated at the failing inputs. `readMemory` with the tag `string` (or
its alias `str`), when none of the 1,000,000 bytes at offsets 0..999,999 from the
address is zero, makes exactly 1,000,001 single-byte reads, at offsets
0..1,000,000, and returns no string. Without callback it throws the
string-too-long error. With a callback the error does not reach the callback: the
message is stored in `argv[0]`, `argv[1]` is never assigned, and the call of the
callback stops the process before the callback is entered. -/
theorem readMemory_string_unterminated (P : Platform) (mem : Memory) (h a : JsValue)
    (tag : List Nat) (htag : tag = lit "string" ∨ tag = lit "str")
    (hnz : ∀ i : Nat, i < 1000000 → mem (h.uint32Value P) (a.integerValue P + i) ≠ 0) :
    readMemory P mem [h, a, .string tag] =
        some ({ thrown := some
                  "unable to read string (no null-terminator found after 1 million chars)",
                returned := none, called := none, crashed := false },
          charReads (h.uint32Value P) (a.integerValue P) 1000001) ∧
      (∀ f, readMemory P mem [h, a, .string tag, .function f] =
        some ({ thrown := none, returned := none, called := none, crashed := true },
          charReads (h.uint32Value P) (a.integerValue P) 1000001)) ∧
      (charReads (h.uint32Value P) (a.integerValue P) 1000001).length ≤ 1000001 := by
  show readMemory P mem [h, a, .string tag] =
        some (throwTypeError stringTooLong,
          charReads (h.uint32Value P) (a.integerValue P) 1000001) ∧
      (∀ f, readMemory P mem [h, a, .string tag, .function f] =
        some (crash, charReads (h.uint32Value P) (a.integerValue P) 1000001)) ∧
      (charReads (h.uint32Value P) (a.integerValue P) 1000001).length ≤ 1000001
  have hloop := stringLoop_bound (mem (h.uint32Value P)) (a.integerValue P) 1000000 0 [] []
    1000001 (by omega) (by omega) (fun i _ hlt => hnz i hlt)
  rw [show (1000000 + 1 : Nat) = 1000001 from rfl, List.nil_append] at hloop
  have hops : List.map (MemOp.readChar (h.uint32Value P))
      ((List.range' 0 1000001).map (fun (i : Nat) => a.integerValue P + (i : Int))) =
      charReads (h.uint32Value P) (a.integerValue P) 1000001 := by
    rw [List.map_map, charReads, List.range_eq_range']
    rfl
  refine ⟨?_, ?_, ?_⟩
  · rw [readMemory_string_branch P mem h a tag [] htag (Or.inl rfl), hloop]
    simp only [List.length_nil, if_true, hops]
  · intro f
    rw [readMemory_string_branch P mem h a tag [.function f] htag (Or.inr ⟨f, rfl⟩), hloop]
    simp only [List.length_nil, if_true, hops]
    rfl
  · rw [charReads, List.length_map, List.length_range]

/-- Claim C1 at a concrete failing input: a memory that holds the byte `A`
everywhere, read with a callback. -/
theorem readMemory_string_unterminated_witness :
    readMemory examplePlatform (fun _ _ => 65)
        [.number (.ofInt 7), .number (.ofInt 4096), .string (lit "string"), .function 1] =
      some ({ thrown := none, returned := none, called := none, crashed := true },
        charReads 7 4096 1000001) :=
  (readMemory_string_unterminated examplePlatform (fun _ _ => 65) (.number (.ofInt 7))
    (.number (.ofInt 4096)) (lit "string") (Or.inl rfl)
    (fun _ _ => Nat.succ_ne_zero 64)).2.1 1

/-- Claim C2, amended. `readMemory` with the tag `string` (or its alias `str`): when
the first zero byte from the address is at offset `k < 1,000,000`, the call raises
no error, makes single-byte reads at exactly the offsets `0, 1, ..., k` in that
order, and yields (as return value, or as the callback's second argument after an
empty error message) the string that `String::NewFromUtf8` builds from the `k` bytes
at offsets `0 .. k - 1`, without the terminator: the string of exactly these bytes
when they are ASCII (the empty string when `k = 0`), and what the host decodes
from them as UTF-8 otherwise. -/
theorem readMemory_string_terminated (P : Platform) (mem : Memory) (h a : JsValue)
    (tag : List Nat) (htag : tag = lit "string" ∨ tag = lit "str") (k : Nat)
    (hk : k < 1000000)
    (hzero : mem (h.uint32Value P) (a.integerValue P + k) = 0)
    (hnz : ∀ i : Nat, i < k → mem (h.uint32Value P) (a.integerValue P + i) ≠ 0) :
    readMemory P mem [h, a, .string tag] =
        some ({ thrown := none,
                returned := some (.string
                  (newFromUtf8 P (bytesAt mem (h.uint32Value P) (a.integerValue P) k))),
                called := none, crashed := false },
          charReads (h.uint32Value P) (a.integerValue P) (k + 1)) ∧
      (∀ f, readMemory P mem [h, a, .string tag, .function f] =
        some ({ thrown := none, returned := none,
                called := some (.function f, [some (.string []),
                  some (.string
                    (newFromUtf8 P (bytesAt mem (h.uint32Value P) (a.integerValue P) k)))]),
                crashed := false },
          charReads (h.uint32Value P) (a.integerValue P) (k + 1))) ∧
      ((∀ b ∈ bytesAt mem (h.uint32Value P) (a.integerValue P) k, b < 128) →
        readMemory P mem [h, a, .string tag] =
          some ({ thrown := none,
                  returned := some
                    (.string (bytesAt mem (h.uint32Value P) (a.integerValue P) k)),
                  called := none, crashed := false },
            charReads (h.uint32Value P) (a.integerValue P) (k + 1))) := by
  show readMemory P mem [h, a, .string tag] =
        some (returnValue
            (.string (newFromUtf8 P (bytesAt mem (h.uint32Value P) (a.integerValue P) k))),
          charReads (h.uint32Value P) (a.integerValue P) (k + 1)) ∧
      (∀ f, readMemory P mem [h, a, .string tag, .function f] =
        some (callBack (.function f) [some (.string (lit "")),
            some (.string
              (newFromUtf8 P (bytesAt mem (h.uint32Value P) (a.integerValue P) k)))],
          charReads (h.uint32Value P) (a.integerValue P) (k + 1))) ∧
      ((∀ b ∈ bytesAt mem (h.uint32Value P) (a.integerValue P) k, b < 128) →
        readMemory P mem [h, a, .string tag] =
          some (returnValue (.string (bytesAt mem (h.uint32Value P) (a.integerValue P) k)),
            charReads (h.uint32Value P) (a.integerValue P) (k + 1)))
  have hloop := stringLoop_terminator (mem (h.uint32Value P)) (a.integerValue P) k hk hzero
    k 0 [] [] 1000001 (by omega) (by omega) (fun i _ hlt => hnz i hlt)
  rw [List.nil_append, List.nil_append, ← List.range_eq_range'] at hloop
  have hops : List.map (MemOp.readChar (h.uint32Value P))
      ((List.range (k + 1)).map (fun (i : Nat) => a.integerValue P + (i : Int))) =
      charReads (h.uint32Value P) (a.integerValue P) (k + 1) := by
    rw [List.map_map, charReads]
    rfl
  have hchars : (List.range (k + 1)).map
      (fun (i : Nat) => mem (h.uint32Value P) (a.integerValue P + (i : Int))) =
      bytesAt mem (h.uint32Value P) (a.integerValue P) k ++ [0] := by
    rw [List.range_succ, List.map_append, bytesAt, List.map_singleton, hzero]
  have hbytes : ∀ b ∈ bytesAt mem (h.uint32Value P) (a.integerValue P) k, b ≠ 0 := by
    intro b hb
    rw [bytesAt, List.mem_map] at hb
    obtain ⟨i, hi, rfl⟩ := hb
    exact hnz i (List.mem_range.mp hi)
  have hcstr := cstr_append_zero _ [] hbytes
  rw [hchars] at hloop
  have hreturn : readMemory P mem [h, a, .string tag] =
      some (returnValue
          (.string (newFromUtf8 P (bytesAt mem (h.uint32Value P) (a.integerValue P) k))),
        charReads (h.uint32Value P) (a.integerValue P) (k + 1)) := by
    rw [readMemory_string_branch P mem h a tag [] htag (Or.inl rfl), hloop]
    simp [hops, hcstr, deliver]
  refine ⟨hreturn, ?_, ?_⟩
  · intro f
    rw [readMemory_string_branch P mem h a tag [.function f] htag (Or.inr ⟨f, rfl⟩), hloop]
    simp [hops, hcstr, deliver, arg, invoke]
  · intro hascii
    rw [hreturn, newFromUtf8_ascii P _ hascii]

/-- Claim C2 fails as stated: where the memory holds the bytes 255, 65 and a zero
byte, the string returned is not made of the bytes 255, 65: the byte 255, which is
not valid UTF-8, is replaced by U+FFFD (the bytes 239, 191, 189). -/
theorem readMemory_string_decoded_counterexample :
    bytesAt exampleMemoryInvalid 7 4096 3 = [255, 65, 0] ∧
    readMemory examplePlatform exampleMemoryInvalid
        [.number (.ofInt 7), .number (.ofInt 4096), .string (lit "string")] =
      some ({ thrown := none, returned := some (.string [239, 191, 189, 65]), called := none,
              crashed := false },
        [.readChar 7 4096, .readChar 7 4097, .readChar 7 4098]) ∧
    JsValue.string [239, 191, 189, 65] ≠ JsValue.string [255, 65] := by
  refine ⟨by rfl, by rfl, ?_⟩
  intro he
  simp at he

/-- Claim C2, amended, at a concrete input: the string `ABC` at address 4096, with
`k = 3`. -/
theorem readMemory_string_terminated_witness :
    readMemory examplePlatform exampleMemory
        [.number (.ofInt 7), .number (.ofInt 4096), .string (lit "string")] =
      some ({ thrown := none, returned := some (.string [65, 66, 67]), called := none,
              crashed := false },
        [.readChar 7 4096, .readChar 7 4097, .readChar 7 4098, .readChar 7 4099]) :=
  (readMemory_string_terminated examplePlatform exampleMemory (.number (.ofInt 7))
    (.number (.ofInt 4096)) (lit "string") (Or.inl rfl) 3 (by decide) (by decide)
    (by decide)).1

/-! ## Theorems: memory and byte layout -/

theorem leBytes_length (size n : Nat) : (leBytes size n).length = size := by
  simp [leBytes]

theorem leBytes_succ (size n : Nat) :
    leBytes (size + 1) n = n % 256 :: leBytes size (n / 256) := by
  simp only [leBytes, List.range_succ_eq_map, List.map_cons, List.map_map, pow_zero, Nat.div_one]
  congr 1
  apply List.map_congr_left
  intro i _
  simp [Function.comp, pow_succ, Nat.div_div_eq_div_mul, Nat.mul_comm]

theorem leValue_leBytes (size : Nat) : ∀ n : Nat, leValue (leBytes size n) = n % 256 ^ size := by
  induction size with
  | zero => intro n; simp [leBytes, leValue, Nat.mod_one]
  | succ size ih =>
    intro n
    rw [leBytes_succ, leValue, ih, Nat.mod_mod, pow_succ, Nat.mul_comm (256 ^ size) 256,
      Nat.mod_mul]

theorem readBytes_writeBytes (mem : Memory) (handle : Nat) (address : Int) (bytes : List Nat) :
    (mem.writeBytes handle address bytes).readBytes handle address bytes.length = bytes := by
  apply List.ext_getElem
  · simp [Memory.readBytes]
  · intro i h1 h2
    have hi : (i : Int) < bytes.length := by exact_mod_cast h2
    simp [Memory.readBytes, Memory.writeBytes, hi, List.getD_eq_getElem?_getD, h2]

theorem writeBytes_outside (mem : Memory) (handle : Nat) (address : Int) (bytes : List Nat)
    (a : Int) (ha : address + bytes.length ≤ a) :
    mem.writeBytes handle address bytes handle a = mem handle a := by
  have : ¬ a < address + bytes.length := by omega
  simp [Memory.writeBytes, this]

theorem truncate_ofInt (n : Int) : (JsNumber.ofInt n).truncate = n := by
  simp [JsNumber.ofInt, JsNumber.truncate]

theorem toSigned_toUnsigned (n : Int) (hlo : -(2 ^ 31) ≤ n) (hhi : n < 2 ^ 31) :
    toSigned 32 (toUnsigned 32 n % 4294967296) = n := by
  unfold toSigned toUnsigned
  norm_num at hlo hhi ⊢
  split_ifs <;> omega

theorem toUnsigned_of_nonneg (n : Int) (hlo : 0 ≤ n) (hhi : n < 2 ^ 32) :
    ((toUnsigned 32 n % 4294967296 : Nat) : Int) = n := by
  unfold toUnsigned
  norm_num at hhi ⊢
  omega

theorem readTyped_writeBytes (P : Platform) (mem : Memory) (type : CType) (handle : Nat)
    (address : Int) (bytes : List Nat) (hlen : bytes.length = type.size P) :
    readTyped P (mem.writeBytes handle address bytes) type handle address = bytes := by
  rw [readTyped, ← hlen, readBytes_writeBytes]

theorem write_read_int (P : Platform) (mem : Memory) (h a : JsValue) (tag : List Nat) (n : Int)
    (htag : tag = lit "int" ∨ tag = lit "long")
    (hlo : -(2 ^ 31) ≤ n) (hhi : n < 2 ^ 31) :
    (writeMemory P mem [h, a, .number (.ofInt n), .string tag]).1 = silent ∧
    (readMemory P (writeMemory P mem [h, a, .number (.ofInt n), .string tag]).2.2
      [h, a, .string tag]).map Prod.fst = some (returnValue (.number (.ofInt n))) := by
  rcases htag with rfl | rfl <;>
    simp +decide [writeMemory, readMemory, arg, JsValue.isString, JsValue.utf8Value, finishWrite,
      deliver, JsValue.numberValue, truncate_ofInt, readTyped_writeBytes, leBytes_length,
      CType.size, leValue_leBytes, toSigned_toUnsigned n hlo hhi]

theorem write_read_dword (P : Platform) (mem : Memory) (h a : JsValue) (n : Int)
    (hlo : 0 ≤ n) (hhi : n < 2 ^ 32) :
    (writeMemory P mem [h, a, .number (.ofInt n), .string (lit "dword")]).1 = silent ∧
    (readMemory P (writeMemory P mem [h, a, .number (.ofInt n), .string (lit "dword")]).2.2
      [h, a, .string (lit "dword")]).map Prod.fst = some (returnValue (.number (.ofInt n))) := by
  simp +decide [writeMemory, readMemory, arg, JsValue.isString, JsValue.utf8Value, finishWrite,
      deliver, JsValue.numberValue, truncate_ofInt, readTyped_writeBytes, leBytes_length,
      CType.size, leValue_leBytes, toUnsigned_of_nonneg n hlo hhi]

theorem write_read_float (P : Platform) (mem : Memory) (h a : JsValue) (x : JsNumber)
    (hx : P.floatValue (P.floatBits x % 2 ^ 32) = x) :
    (writeMemory P mem [h, a, .number x, .string (lit "float")]).1 = silent ∧
    (readMemory P (writeMemory P mem [h, a, .number x, .string (lit "float")]).2.2
      [h, a, .string (lit "float")]).map Prod.fst = some (returnValue (.number x)) := by
  norm_num at hx
  simp +decide [writeMemory, readMemory, arg, JsValue.isString, JsValue.utf8Value, finishWrite,
      deliver, JsValue.numberValue, readTyped_writeBytes, leBytes_length,
      CType.size, leValue_leBytes, hx]

theorem write_read_double (P : Platform) (mem : Memory) (h a : JsValue) (x : JsNumber)
    (hx : P.doubleValue (P.doubleBits x % 2 ^ 64) = x) :
    (writeMemory P mem [h, a, .number x, .string (lit "double")]).1 = silent ∧
    (readMemory P (writeMemory P mem [h, a, .number x, .string (lit "double")]).2.2
      [h, a, .string (lit "double")]).map Prod.fst = some (returnValue (.number x)) := by
  norm_num at hx
  simp +decide [writeMemory, readMemory, arg, JsValue.isString, JsValue.utf8Value, finishWrite,
      deliver, JsValue.numberValue, readTyped_writeBytes, leBytes_length,
      CType.size, leValue_leBytes, hx]

theorem write_read_bool (P : Platform) (mem : Memory) (h a : JsValue) (tag : List Nat) (b : Bool)
    (htag : tag = lit "bool" ∨ tag = lit "boolean") :
    (writeMemory P mem [h, a, .boolean b, .string tag]).1 = silent ∧
    (readMemory P (writeMemory P mem [h, a, .boolean b, .string tag]).2.2
      [h, a, .string tag]).map Prod.fst = some (returnValue (.boolean b)) := by
  rcases htag with rfl | rfl <;> cases b <;>
    simp +decide [writeMemory, readMemory, arg, JsValue.isString, JsValue.utf8Value, finishWrite,
      deliver, JsValue.booleanValue, readTyped, Memory.readBytes, Memory.writeBytes, CType.size,
      leValue]

theorem take_four (b rest : List Nat) (hb : b.length = 4) : (b ++ rest).take 4 = b := by
  rw [← hb, List.take_left]

theorem drop_four (b rest : List Nat) (hb : b.length = 4) : (b ++ rest).drop 4 = rest := by
  rw [← hb, List.drop_left]

theorem take_four_self (b : List Nat) (hb : b.length = 4) : b.take 4 = b := by
  rw [← hb, List.take_length]

theorem drop_eight (b c rest : List Nat) (hb : b.length = 4) (hc : c.length = 4) :
    (b ++ (c ++ rest)).drop 8 = rest := by
  rw [← List.append_assoc, show 8 = (b ++ c).length by simp [hb, hc], List.drop_left]

theorem drop_twelve (b c d rest : List Nat) (hb : b.length = 4) (hc : c.length = 4)
    (hd : d.length = 4) : (b ++ (c ++ (d ++ rest))).drop 12 = rest := by
  rw [← List.append_assoc, ← List.append_assoc,
    show 12 = (b ++ c ++ d).length by simp [hb, hc, hd], List.drop_left]

theorem write_read_vector3 (P : Platform) (mem : Memory) (h a : JsValue) (tag : List Nat)
    (x y z : JsNumber) (htag : tag = lit "vector3" ∨ tag = lit "vec3")
    (hx : P.floatValue (P.floatBits x % 2 ^ 32) = x)
    (hy : P.floatValue (P.floatBits y % 2 ^ 32) = y)
    (hz : P.floatValue (P.floatBits z % 2 ^ 32) = z) :
    (writeMemory P mem [h, a, .object [("x", .number x), ("y", .number y), ("z", .number z)],
      .string tag]).1 = silent ∧
    (readMemory P (writeMemory P mem [h, a,
        .object [("x", .number x), ("y", .number y), ("z", .number z)], .string tag]).2.2
      [h, a, .string tag]).map Prod.fst =
      some (returnValue (.object [("x", .number x), ("y", .number y), ("z", .number z)])) := by
  norm_num at hx hy hz
  have hlen : (vector3Bytes P (.object [("x", .number x), ("y", .number y), ("z", .number z)])).length
      = CType.size P .vector3 := by
    simp [vector3Bytes, leBytes_length, CType.size]
  rcases htag with rfl | rfl <;>
    simp +decide [writeMemory, readMemory, arg, JsValue.isString, JsValue.utf8Value, finishWrite,
      deliver, readTyped_writeBytes, hlen, vector3Object] <;>
    simp +decide [vector3Bytes, JsValue.get, JsValue.numberValue, List.append_assoc, take_four,
      take_four_self, drop_four, drop_eight, drop_twelve, leBytes_length, leValue_leBytes, hx, hy, hz]

theorem write_read_vector4 (P : Platform) (mem : Memory) (h a : JsValue) (tag : List Nat)
    (w x y z : JsNumber) (htag : tag = lit "vector4" ∨ tag = lit "vec4")
    (hw : P.floatValue (P.floatBits w % 2 ^ 32) = w)
    (hx : P.floatValue (P.floatBits x % 2 ^ 32) = x)
    (hy : P.floatValue (P.floatBits y % 2 ^ 32) = y)
    (hz : P.floatValue (P.floatBits z % 2 ^ 32) = z) :
    (writeMemory P mem [h, a,
      .object [("w", .number w), ("x", .number x), ("y", .number y), ("z", .number z)],
      .string tag]).1 = silent ∧
    (readMemory P (writeMemory P mem [h, a,
        .object [("w", .number w), ("x", .number x), ("y", .number y), ("z", .number z)],
        .string tag]).2.2
      [h, a, .string tag]).map Prod.fst =
      some (returnValue
        (.object [("w", .number w), ("x", .number x), ("y", .number y), ("z", .number z)])) := by
  norm_num at hw hx hy hz
  have hlen : (vector4Bytes P
      (.object [("w", .number w), ("x", .number x), ("y", .number y), ("z", .number z)])).length
      = CType.size P .vector4 := by
    simp [vector4Bytes, leBytes_length, CType.size]
  rcases htag with rfl | rfl <;>
    simp +decide [writeMemory, readMemory, arg, JsValue.isString, JsValue.utf8Value, finishWrite,
      deliver, readTyped_writeBytes, hlen, vector4Object] <;>
    simp +decide [vector4Bytes, JsValue.get, JsValue.numberValue, List.append_assoc, take_four,
      take_four_self, drop_four, drop_eight, drop_twelve, leBytes_length, leValue_leBytes, hw, hx, hy, hz]

theorem write_read_string (P : Platform) (mem : Memory) (h a : JsValue) (tag : List Nat)
    (s : List Nat) (htag : tag = lit "string" ∨ tag = lit "str")
    (hutf8 : newFromUtf8 P s = s)
    (hnz : ∀ b ∈ s, b ≠ 0) (hlen : s.length < 1000000)
    (haddr : a.integerValue P = a.uint32Value P)
    (hterm : mem (h.uint32Value P) (a.uint32Value P + s.length) = 0) :
    (writeMemory P mem [h, a, .string s, .string tag]).1 = silent ∧
    (readMemory P (writeMemory P mem [h, a, .string s, .string tag]).2.2
      [h, a, .string tag]).map Prod.fst = some (returnValue (.string s)) := by
  have hwrite : writeMemory P mem [h, a, .string s, .string tag] =
      (silent, [MemOp.writeBuffer (h.uint32Value P) (a.uint32Value P) s s.length],
        mem.writeBytes (h.uint32Value P) (a.uint32Value P) s) := by
    rcases htag with rfl | rfl <;>
      simp +decide [writeMemory, arg, JsValue.isString, JsValue.utf8Value, finishWrite]
  have hstored : (List.range s.length).map (fun (i : Nat) =>
      mem.writeBytes (h.uint32Value P) (a.uint32Value P) s (h.uint32Value P)
        ((a.uint32Value P : Int) + (i : Int))) = s :=
    readBytes_writeBytes mem (h.uint32Value P) (a.uint32Value P) s
  have hzero : mem.writeBytes (h.uint32Value P) (a.uint32Value P) s (h.uint32Value P)
      ((a.uint32Value P : Int) + (s.length : Nat)) = 0 := by
    rw [writeBytes_outside mem _ _ s _ (le_refl _)]
    exact hterm
  have hne : ∀ i : Nat, i < s.length →
      mem.writeBytes (h.uint32Value P) (a.uint32Value P) s (h.uint32Value P)
        ((a.uint32Value P : Int) + (i : Int)) ≠ 0 := by
    intro i hi
    apply hnz
    have hmem : mem.writeBytes (h.uint32Value P) (a.uint32Value P) s (h.uint32Value P)
        ((a.uint32Value P : Int) + (i : Int)) ∈ (List.range s.length).map (fun (i : Nat) =>
        mem.writeBytes (h.uint32Value P) (a.uint32Value P) s (h.uint32Value P)
          ((a.uint32Value P : Int) + (i : Int))) :=
      List.mem_map.mpr ⟨i, List.mem_range.mpr hi, rfl⟩
    rw [hstored] at hmem
    exact hmem
  have hloop := stringLoop_terminator
    (mem.writeBytes (h.uint32Value P) (a.uint32Value P) s (h.uint32Value P))
    (a.uint32Value P) s.length hlen hzero s.length 0 [] [] 1000001 (by omega) (by omega)
    (fun i _ hlt => hne i hlt)
  rw [List.nil_append, List.nil_append, ← List.range_eq_range', List.range_succ, List.map_append,
    hstored, List.map_singleton, hzero] at hloop
  refine ⟨by rw [hwrite], ?_⟩
  rw [hwrite, readMemory_string_branch P _ h a tag [] htag (Or.inl rfl), haddr, hloop]
  simp [cstr_append_zero s [] hnz, deliver, hutf8]

/-- Claim C3, amended. For the tags `int`, `dword`, `long`, `float`, `double`, `bool`,
`vector3`, `vector4` and `string` (and their aliases), every handle and every
address: `writeMemory` of a value of the tag's type completes silently, and
`readMemory` with the same tag at the same address then returns the value written.
A value of the type is an integer in the range of the 32-bit type, a boolean, a
number (or an object of numbers) that the platform represents as `float` or
`double`; a host string comes back when it holds no zero byte, is shorter than
1,000,000 bytes, lies at an address below `2 ^ 32` and is followed in memory by a
zero byte, no terminator being written. -/
theorem writeMemory_then_readMemory (P : Platform) (mem : Memory) (h a : JsValue)
    (tag : List Nat) (v : JsValue) (hv : Storable P mem h a tag v) :
    (writeMemory P mem [h, a, v, .string tag]).1 = silent ∧
    (readMemory P (writeMemory P mem [h, a, v, .string tag]).2.2 [h, a, .string tag]).map Prod.fst
      = some (returnValue v) := by
  cases hv with
  | int tag n htag hlo hhi => exact write_read_int P mem h a tag n htag hlo hhi
  | dword n hlo hhi => exact write_read_dword P mem h a n hlo hhi
  | float x hx => exact write_read_float P mem h a x hx
  | double x hx => exact write_read_double P mem h a x hx
  | bool tag b htag => exact write_read_bool P mem h a tag b htag
  | string tag s htag hutf8 hnz hlen haddr hterm =>
    exact write_read_string P mem h a tag s htag hutf8 hnz hlen haddr hterm
  | vector3 tag x y z htag hx hy hz => exact write_read_vector3 P mem h a tag x y z htag hx hy hz
  | vector4 tag w x y z htag hw hx hy hz =>
    exact write_read_vector4 P mem h a tag w x y z htag hw hx hy hz

/-- Claim C3, amended, at a concrete input: the `int` value `-42` at address 4096. -/
theorem writeMemory_then_readMemory_witness :
    (writeMemory examplePlatform exampleMemory
      [.number (.ofInt 7), .number (.ofInt 4096), .number (.ofInt (-42)), .string (lit "int")]).1
      = silent ∧
    (readMemory examplePlatform (writeMemory examplePlatform exampleMemory
        [.number (.ofInt 7), .number (.ofInt 4096), .number (.ofInt (-42)),
          .string (lit "int")]).2.2
      [.number (.ofInt 7), .number (.ofInt 4096), .string (lit "int")]).map Prod.fst
      = some (returnValue (.number (.ofInt (-42)))) :=
  writeMemory_then_readMemory examplePlatform exampleMemory (.number (.ofInt 7))
    (.number (.ofInt 4096)) (lit "int") (.number (.ofInt (-42)))
    (Storable.int (lit "int") (-42) (Or.inl rfl) (by decide) (by decide))

/-- Claim C3 fails as stated: the string `X` written at address 4096, where the bytes
`B`, `C` and a zero byte follow, is read back as `XBC`. -/
theorem writeMemory_then_readMemory_string_counterexample :
    (readMemory examplePlatform (writeMemory examplePlatform exampleMemory
        [.number (.ofInt 7), .number (.ofInt 4096), .string (lit "X"), .string (lit "string")]).2.2
      [.number (.ofInt 7), .number (.ofInt 4096), .string (lit "string")]).map Prod.fst
      = some (returnValue (.string (lit "XBC"))) ∧
    returnValue (.string (lit "XBC")) ≠ returnValue (.string (lit "X")) := by
  refine ⟨by rfl, ?_⟩
  intro he
  have := congrArg Outcome.returned he
  simp [returnValue, lit] at this

/-- Claim C4, evaluated at the failing input. `writeMemory` has no branch for the tag
`pointer`: whatever the handle, the address and the value, the call throws
"unexpected data type" and writes nothing, whereas `readMemory` with the same tag
reads an `intptr_t` at the address. -/
theorem writeMemory_pointer_rejected (P : Platform) (mem : Memory) (h a v : JsValue) :
    writeMemory P mem [h, a, v, .string (lit "pointer")] =
      (throwTypeError "unexpected data type", [], mem) ∧
    (readMemory P mem [h, a, .string (lit "pointer")]).map Prod.snd =
      some [MemOp.read .intptr (h.uint32Value P) (a.uint32Value P)] := by
  constructor
  · simp +decide [writeMemory, arg, JsValue.isString, JsValue.utf8Value]
  · simp +decide [readMemory, arg, JsValue.isString, JsValue.utf8Value]

/-- Claim C5 fails as stated: the tag made of `int`, a zero byte and `xyz` is none
of the recognized tags, yet the dispatch, which compares C strings, takes it for
`int`: `readMemory` reads an `int` and returns it, `writeMemory` writes one. -/
theorem embedded_zero_tag_counterexample :
    lit "int" ++ 0 :: lit "xyz" ∉ recognizedTags ∧
    readMemory examplePlatform exampleMemory
        [.number (.ofInt 7), .number (.ofInt 4096), .string (lit "int" ++ 0 :: lit "xyz")] =
      some ({ thrown := none, returned := some (.number (.finite 4407873 0)), called := none,
              crashed := false }, [MemOp.read .int 7 4096]) ∧
    (writeMemory examplePlatform exampleMemory
        [.number (.ofInt 7), .number (.ofInt 4096), .number (.ofInt 1),
          .string (lit "int" ++ 0 :: lit "xyz")]).2.1 =
      [MemOp.write .int 7 4096 [1, 0, 0, 0]] := by
  refine ⟨by decide, by rfl, by rfl⟩

/-- Claim C5, amended. For every type tag whose C string (its bytes before the first
zero byte, which is what the dispatch compares) is none of the names the dispatch
compares with: `readMemory` called without callback and `writeMemory` throw
"unexpected data type", return no value and call no memory primitive, and the
memory is unchanged; with a callback, too, `readMemory` calls no memory primitive
and sets no return value. -/
theorem unexpected_data_type (P : Platform) (mem : Memory) (h a v : JsValue) (tag : List Nat)
    (htag : cstr tag ∉ recognizedTags) :
    readMemory P mem [h, a, .string tag] =
      some ({ thrown := some "unexpected data type", returned := none, called := none,
              crashed := false }, []) ∧
    (∀ f, (readMemory P mem [h, a, .string tag, .function f]).map Prod.snd = some [] ∧
      (readMemory P mem [h, a, .string tag, .function f]).map (fun r => r.1.returned) =
        some none) ∧
    writeMemory P mem [h, a, v, .string tag] =
      ({ thrown := some "unexpected data type", returned := none, called := none,
         crashed := false }, [], mem) := by
  show readMemory P mem [h, a, .string tag] = some (throwTypeError "unexpected data type", []) ∧
    (∀ f, (readMemory P mem [h, a, .string tag, .function f]).map Prod.snd = some [] ∧
      (readMemory P mem [h, a, .string tag, .function f]).map (fun r => r.1.returned) =
        some none) ∧
    writeMemory P mem [h, a, v, .string tag] =
      (throwTypeError "unexpected data type", [], mem)
  simp only [recognizedTags, List.mem_cons, List.mem_singleton, List.mem_nil_iff, not_or,
    or_false] at htag
  obtain ⟨h1, h2, h3, h4, h5, h6, h7, h8, h9, h10, h11, h12, h13, h14, h15⟩ := htag
  refine ⟨?_, ?_, ?_⟩
  · simp [readMemory, arg, JsValue.isString, JsValue.utf8Value, h1, h2, h3, h4, h5, h6, h7, h8,
      h9, h10, h11, h12, h13, h14, h15]
  · intro f
    simp [readMemory, arg, JsValue.isString, JsValue.isFunction, JsValue.utf8Value, h1, h2, h3,
      h4, h5, h6, h7, h8, h9, h10, h11, h12, h13, h14, h15, invoke, crash]
  · simp [writeMemory, arg, JsValue.isString, JsValue.utf8Value, h1, h2, h3, h4, h5, h8,
      h9, h10, h11, h12, h13, h14, h15]

/-- Claim C5, amended, at a concrete input: the tag `short`. -/
theorem unexpected_data_type_witness :
    readMemory examplePlatform exampleMemory
        [.number (.ofInt 7), .number (.ofInt 4096), .string (lit "short")] =
      some ({ thrown := some "unexpected data type", returned := none, called := none,
              crashed := false }, []) ∧
    writeMemory examplePlatform exampleMemory
        [.number (.ofInt 7), .number (.ofInt 4096), .number (.ofInt 1), .string (lit "short")] =
      ({ thrown := some "unexpected data type", returned := none, called := none,
         crashed := false }, [], exampleMemory) :=
  have hw := unexpected_data_type examplePlatform exampleMemory (.number (.ofInt 7))
    (.number (.ofInt 4096)) (.number (.ofInt 1)) (lit "short") (by decide)
  ⟨hw.1, hw.2.2⟩

/-! ## Theorems: `findModule` -/

theorem retryLoop_absent (lookup : Nat → ModuleEntry × Option String)
    (habsent : ∀ n, cstr (lookup n).1.szExePath = []) :
    ∀ (fuel calls : Nat) (module : ModuleEntry) (errorMessage : String),
      cstr module.szExePath = [] → retryLoop lookup fuel calls module errorMessage = none := by
  intro fuel
  induction fuel with
  | zero => intro _ _ _ _; rfl
  | succ fuel ih =>
    intro calls module errorMessage hempty
    rw [retryLoop, if_pos hempty]
    exact ih _ _ _ (habsent calls)

/-- The callback form of `findModule` is still retrying after any number of tests
of its loop condition when every lookup yields an empty path. -/
theorem findModule_callback_absent (P : Platform) (os : Primitives) (name : List Nat)
    (pid : JsValue) (f : Nat)
    (habsent : ∀ n, cstr (os.findModule (cstr name) (pid.int32Value P) n).1.szExePath = [])
    (fuel : Nat) :
    findModule P os fuel [.string name, pid, .function f] = none := by
  have hloop := fun m e => retryLoop_absent _ habsent fuel 1 m e
  simp [findModule, arg, JsValue.isString, JsValue.isFunction, JsValue.utf8Value,
    hloop _ _ (habsent 0)]

/-- Claim C6, evaluated at the failing input. With a module that no lookup finds
(every lookup yields an empty path and the message "unable to find module"), the
callback form of `findModule` has not returned after any number of retries,
whereas the form without callback throws the message after one lookup. -/
theorem findModule_callback_never_returns (fuel : Nat) :
    findModule examplePlatform examplePrimitives fuel
      [.string (lit "nosuch.dll"), .number (.ofInt 1234), .function 1] = none ∧
    findModule examplePlatform examplePrimitives fuel
      [.string (lit "nosuch.dll"), .number (.ofInt 1234)] =
      some (throwTypeError "unable to find module", 1) := by
  constructor
  · exact findModule_callback_absent examplePlatform examplePrimitives (lit "nosuch.dll")
      (.number (.ofInt 1234)) 1 (fun _ => rfl) fuel
  · simp +decide [findModule, arg, JsValue.isString, examplePrimitives, setError]

/-! ## Theorems: `findPattern` -/

theorem scanModules_no_match (scan : ModuleEntry → Nat) (moduleName : List Nat) (address : Nat) :
    ∀ entries : List ModuleEntry, (∀ e ∈ entries, cstr e.szModule ≠ moduleName) →
      scanModules scan moduleName address entries = address := by
  intro entries
  induction entries with
  | nil => intro _; rfl
  | cons e es ih =>
    intro hne
    rw [scanModules, if_neg (hne e (by simp))]
    exact ih (fun e' he' => hne e' (by simp [he']))

/-- When the enumeration sets no error message and no module has the name asked
for, `findPattern` without callback returns the number of `(uintptr_t) -1` and
throws nothing. -/
theorem findPattern_no_module (P : Platform) (os : Primitives) (args : List JsValue)
    (hlen : args.length ≠ 7)
    (herr : (os.getModules (os.getProcessId ((arg args 0).uint32Value P))).2 = none)
    (hnone : ∀ e ∈ (os.getModules (os.getProcessId ((arg args 0).uint32Value P))).1,
      cstr e.szModule ≠ cstr ((arg args 1).utf8Value P)) :
    findPattern P os args =
      returnValue (.number (P.numberOfInt ((2 ^ (8 * P.ptrBytes) - 1 : Nat) : Int))) := by
  simp [findPattern, herr, setError, hlen, scanModules_no_match _ _ _ _ hnone]

/-- Claim C7, evaluated at the failing input. The process has the single module
`client.dll` and the enumeration sets no error message. Asked for the module
`nomodule.dll`, `findPattern` returns the number 4294967295 (the initial `-1`) as
its result and throws nothing; asked for `client.dll`, where the scan yields the
no-match code, it returns 4294967294 and throws nothing; with a callback the error
argument is the empty string in both cases. -/
theorem findPattern_reports_no_error :
    findPattern examplePlatform examplePrimitives
        [.number (.ofInt 7), .string (lit "nomodule.dll"), .string (lit "DE AD BE EF"),
          .number (.ofInt 0), .number (.ofInt 0), .number (.ofInt 0)] =
      returnValue (.number (.ofInt 4294967295)) ∧
    findPattern examplePlatform examplePrimitives
        [.number (.ofInt 7), .string (lit "client.dll"), .string (lit "DE AD BE EF"),
          .number (.ofInt 0), .number (.ofInt 0), .number (.ofInt 0)] =
      returnValue (.number (.ofInt 4294967294)) ∧
    findPattern examplePlatform examplePrimitives
        [.number (.ofInt 7), .string (lit "nomodule.dll"), .string (lit "DE AD BE EF"),
          .number (.ofInt 0), .number (.ofInt 0), .function 1, .undefined] =
      callBack (.function 1) [some (.string (lit "")), some (.number (.ofInt 4294967295))] := by
  refine ⟨?_, ?_, ?_⟩
  · exact findPattern_no_module examplePlatform examplePrimitives _ (by decide) rfl (by decide)
  · rfl
  · rfl

/-! ## Theorems: `closeProcess` -/

/-- Claim C8 fails as stated: with the handle 64 open, the first `closeProcess(64)`
closes it, and the second call on the handle, now closed, completes silently. -/
theorem closeProcess_twice_counterexample :
    closeProcess examplePlatform [64] [.number (.ofInt 64)] = (silent, []) ∧
    closeProcess examplePlatform [] [.number (.ofInt 64)] = (silent, []) ∧
    (closeProcess examplePlatform [] [.number (.ofInt 64)]).1.thrown = none := by
  refine ⟨?_, ?_, ?_⟩ <;> rfl

/-- Claim C8, amended. Called with one number, `closeProcess` reports no error,
whatever the set of open handles: it passes the handle to `Process.closeProcess`
and returns; in particular the second of two calls on the same handle completes
silently. Only a wrong argument count and an argument that is not a number raise
an error. -/
theorem closeProcess_never_reports (P : Platform) (openHandles : List Int) (n : JsNumber) :
    (closeProcess P openHandles [.number n]).1 = silent ∧
    (closeProcess P (closeProcess P openHandles [.number n]).2 [.number n]).1 = silent ∧
    (∀ args, (closeProcess P openHandles args).1.thrown ≠ none →
      args.length ≠ 1 ∨ (arg args 0).isNumber = false) := by
  refine ⟨?_, ?_, ?_⟩
  · simp [closeProcess, arg, JsValue.isNumber]
  · simp [closeProcess, arg, JsValue.isNumber]
  · intro args hthrown
    by_contra hcon
    simp only [not_or, not_not] at hcon
    have hnum : (arg args 0).isNumber = true := by
      cases hb : (arg args 0).isNumber
      · exact absurd hb hcon.2
      · rfl
    simp [closeProcess, hcon.1, hnum, silent] at hthrown

/-! ## Theorems: `openProcess` -/

/-- Claim C9 fails as stated: the negative number `-1` and the fractional number
`1.5` are not rejected; each leads to an attempt to open a process, with the process
ids 4294967295 and 1. -/
theorem openProcess_number_counterexample :
    (openProcess examplePlatform examplePrimitives [.number (.ofInt (-1))]).2 =
      [OpenCall.byId 4294967295] ∧
    (openProcess examplePlatform examplePrimitives [.number (.ofInt (-1))]).1.thrown = none ∧
    (openProcess examplePlatform examplePrimitives [.number (.finite 3 (-1))]).2 =
      [OpenCall.byId 1] ∧
    (openProcess examplePlatform examplePrimitives [.number (.finite 3 (-1))]).1.thrown = none := by
  refine ⟨?_, ?_, ?_, ?_⟩ <;> rfl

/-- Claim C9, amended. `openProcess` rejects with a `TypeError`, before any attempt to
open a process, every target that is neither a string nor a number (a boolean, an
object, `undefined`, ...). With one argument, or two of which the second is a
function, every string leads to exactly one attempt to open the process of that
name, and every number, negative and fractional ones included, to exactly one
attempt to open the process whose id is the number converted by `ToUint32`. -/
theorem openProcess_target (P : Platform) (os : Primitives) (target : JsValue)
    (rest : List JsValue) (hrest : rest = [] ∨ ∃ f, rest = [.function f]) :
    (∀ args : List JsValue, (arg args 0).isString = false → (arg args 0).isNumber = false →
      (openProcess P os args).2 = [] ∧
      ((openProcess P os args).1 =
          throwTypeError "requires 1 argument, or 2 arguments if a callback is being used" ∨
        (openProcess P os args).1 =
          throwTypeError "first argument must be a string or a number")) ∧
    (∀ s, target = .string s →
      (openProcess P os (target :: rest)).2 = [OpenCall.byName (cstr s)]) ∧
    (∀ n, target = .number n →
      (openProcess P os (target :: rest)).2 = [OpenCall.byId n.toUint32]) := by
  refine ⟨?_, ?_, ?_⟩
  · intro args hs hn
    by_cases hlen : args.length ≠ 1 ∧ args.length ≠ 2
    · simp [openProcess, hlen]
    · simp [openProcess, hlen, hs, hn]
  · rintro s rfl
    rcases hrest with rfl | ⟨f, rfl⟩
    · simp only [openProcess, arg, JsValue.isString, JsValue.isNumber, JsValue.utf8Value]
      simp only [List.length_singleton, List.getD_cons_zero]
      split_ifs <;> simp_all
    · simp [openProcess, arg, JsValue.isString, JsValue.isNumber, JsValue.isFunction,
        JsValue.utf8Value]
  · rintro n rfl
    rcases hrest with rfl | ⟨f, rfl⟩
    · simp only [openProcess, arg, JsValue.isString, JsValue.isNumber, JsValue.uint32Value,
        JsValue.numberValue]
      simp only [List.length_singleton, List.getD_cons_zero]
      split_ifs <;> simp_all
    · simp [openProcess, arg, JsValue.isString, JsValue.isNumber, JsValue.isFunction,
        JsValue.uint32Value, JsValue.numberValue]

/-- Claim C9, amended, at concrete inputs: the targets `true`, `notepad.exe` and 1234. -/
theorem openProcess_target_witness :
    (openProcess examplePlatform examplePrimitives [.boolean true]).1 =
        throwTypeError "first argument must be a string or a number" ∧
    (openProcess examplePlatform examplePrimitives [.boolean true]).2 = [] ∧
    (openProcess examplePlatform examplePrimitives [.string (lit "notepad.exe")]).2 =
      [OpenCall.byName (lit "notepad.exe")] ∧
    (openProcess examplePlatform examplePrimitives [.number (.ofInt 1234)]).2 =
      [OpenCall.byId 1234] :=
  have hb := (openProcess_target examplePlatform examplePrimitives (.boolean true) []
    (Or.inl rfl)).1 [.boolean true] rfl rfl
  ⟨by rfl, hb.1,
    (openProcess_target examplePlatform examplePrimitives (.string (lit "notepad.exe")) []
      (Or.inl rfl)).2.1 _ rfl,
    (openProcess_target examplePlatform examplePrimitives (.number (.ofInt 1234)) []
      (Or.inl rfl)).2.2 _ rfl⟩

/-! ## Theorems: addresses -/

theorem stringLoop_reads (readChar : Int → Nat) (address : Int) :
    ∀ (d offset : Nat) (chars : List Nat) (reads : List Int) (fuel : Nat),
      offset + d = 1000000 → d < fuel →
      ∃ (chars1 : List Nat) (count : Nat),
        stringLoop readChar address fuel offset chars reads =
          some (chars1,
            reads ++ (List.range' offset count).map (fun (i : Nat) => address + (i : Int))) := by
  intro d
  induction d with
  | zero =>
    intro offset chars reads fuel hoff hfuel
    obtain ⟨f, rfl⟩ : ∃ f, fuel = f + 1 := ⟨fuel - 1, by omega⟩
    have h1 : offset = 1000000 := by omega
    exact ⟨[], 1, by simp [stringLoop, h1]⟩
  | succ d ih =>
    intro offset chars reads fuel hoff hfuel
    obtain ⟨f, rfl⟩ : ∃ f, fuel = f + 1 := ⟨fuel - 1, by omega⟩
    have h1 : offset ≠ 1000000 := by omega
    by_cases h2 : readChar (address + offset) = 0
    · exact ⟨chars ++ [readChar (address + offset)], 1, by simp [stringLoop, h1, h2]⟩
    · obtain ⟨chars1, count, h3⟩ := ih (offset + 1) (chars ++ [readChar (address + offset)])
        (reads ++ [address + offset]) f (by omega) (by omega)
      refine ⟨chars1, count + 1, ?_⟩
      simp only [stringLoop, h1, h2, if_false]
      rw [h3]
      simp [List.range'_succ]

/-- The string branch of `readMemory` returns, and all its memory accesses are
single-byte reads at `IntegerValue(address) + offset` for the offsets from 0 upwards. -/
theorem readMemory_string_reads (P : Platform) (mem : Memory) (h a : JsValue) (tag : List Nat)
    (htag : tag = lit "string" ∨ tag = lit "str") :
    ∃ count, (readMemory P mem [h, a, .string tag]).map Prod.snd =
      some (charReads (h.uint32Value P) (a.integerValue P) count) := by
  obtain ⟨chars, count, hloop⟩ := stringLoop_reads (mem (h.uint32Value P)) (a.integerValue P)
    1000000 0 [] [] 1000001 (by omega) (by omega)
  refine ⟨count, ?_⟩
  rw [List.nil_append] at hloop
  rw [readMemory_string_branch P mem h a tag [] htag (Or.inl rfl), hloop]
  have hops : List.map (MemOp.readChar (h.uint32Value P))
      ((List.range' 0 count).map (fun (i : Nat) => a.integerValue P + (i : Int))) =
      charReads (h.uint32Value P) (a.integerValue P) count := by
    rw [List.map_map, charReads, List.range_eq_range']
    rfl
  simp only [hops, List.length_nil, if_true]
  by_cases hc : chars.length = 0
  · rw [if_pos hc]; rfl
  · rw [if_neg hc]; rfl

theorem uint32Value_ofInt (P : Platform) (n : Int) (hlo : 0 ≤ n) (hhi : n < 2 ^ 32) :
    ((JsValue.uint32Value P (.number (.ofInt n)) : Nat) : Int) = n := by
  simp only [JsValue.uint32Value, JsValue.numberValue, JsNumber.toUint32, truncate_ofInt]
  norm_num at hhi ⊢
  omega

theorem integerValue_ofInt (P : Platform) (n : Int) (hlo : -(2 ^ 63) ≤ n) (hhi : n < 2 ^ 63) :
    JsValue.integerValue P (.number (.ofInt n)) = n := by
  simp only [JsValue.integerValue, JsValue.numberValue, JsNumber.ofInt, JsNumber.toInt64,
    JsNumber.truncate]
  norm_num at hlo hhi ⊢
  omega

theorem readMemory_fixed_ops (P : Platform) (mem : Memory) (h a : JsValue) (tag : List Nat)
    (type : CType) (htag : (tag, type) ∈ fixedTags) :
    (readMemory P mem [h, a, .string tag]).map Prod.snd =
      some [MemOp.read type (h.uint32Value P) (a.uint32Value P)] := by
  have hall : ∀ p ∈ fixedTags, (readMemory P mem [h, a, .string p.1]).map Prod.snd =
      some [MemOp.read p.2 (h.uint32Value P) (a.uint32Value P)] := by
    simp +decide [fixedTags, readMemory, arg, JsValue.isString, JsValue.utf8Value]
  exact hall (tag, type) htag

theorem writeMemory_fixed_ops (P : Platform) (mem : Memory) (h a v : JsValue) (tag : List Nat)
    (type : CType) (htag : (tag, type) ∈ fixedTags) (htype : type ≠ .intptr) :
    ∃ bytes, (writeMemory P mem [h, a, v, .string tag]).2.1 =
      [MemOp.write type (h.uint32Value P) (a.uint32Value P) bytes] := by
  have hall : ∀ p ∈ fixedTags, p.2 ≠ .intptr →
      ∃ bytes, (writeMemory P mem [h, a, v, .string p.1]).2.1 =
        [MemOp.write p.2 (h.uint32Value P) (a.uint32Value P) bytes] := by
    simp +decide [fixedTags, writeMemory, arg, JsValue.isString, JsValue.utf8Value]
  exact hall (tag, type) htag htype

theorem writeMemory_string_ops (P : Platform) (mem : Memory) (h a v : JsValue) (tag : List Nat)
    (htag : tag = lit "string" ∨ tag = lit "str") :
    (writeMemory P mem [h, a, v, .string tag]).2.1 =
      [MemOp.writeBuffer (h.uint32Value P) (a.uint32Value P) (v.utf8Value P)
        (v.utf8Value P).length] := by
  rcases htag with rfl | rfl <;>
    simp +decide [writeMemory, arg, JsValue.isString, JsValue.utf8Value]

/-- Claim C10 fails as stated: on a platform with 64-bit pointers, for the address
`2 ^ 32`, the `int` read and the `int` write are issued at address 0, while the
string read of the same argument is issued at `2 ^ 32`. -/
theorem address_truncated_counterexample :
    examplePlatform64.ptrBytes = 8 ∧
    (readMemory examplePlatform64 (fun _ _ => 0)
      [.number (.ofInt 7), .number (.ofInt 4294967296), .string (lit "int")]).map Prod.snd =
      some [MemOp.read .int 7 0] ∧
    (writeMemory examplePlatform64 (fun _ _ => 0)
      [.number (.ofInt 7), .number (.ofInt 4294967296), .number (.ofInt 1),
        .string (lit "int")]).2.1 =
      [MemOp.write .int 7 0 [1, 0, 0, 0]] ∧
    (readMemory examplePlatform64 (fun _ _ => 0)
      [.number (.ofInt 7), .number (.ofInt 4294967296), .string (lit "string")]).map Prod.snd =
      some [MemOp.readChar 7 4294967296] := by
  refine ⟨?_, ?_, ?_, ?_⟩ <;> rfl

/-- Claim C10, amended. For every address `n` below `2 ^ 32` passed as a number to
`readMemory` or `writeMemory`, the memory access is issued at exactly `n`: the
fixed-width reads and writes and the string write at `n`, the single-byte reads of
the string read at `n + offset` for the offsets from 0 upwards, so the fixed-width
and the string paths use the same address. (The fixed-width paths take the address
by `Uint32Value()`, as a 32-bit unsigned integer.) -/
theorem address_below_two_pow_32 (P : Platform) (mem : Memory) (h : JsValue) (n : Int)
    (hlo : 0 ≤ n) (hhi : n < 2 ^ 32) :
    (∀ tag type, (tag, type) ∈ fixedTags →
      (readMemory P mem [h, .number (.ofInt n), .string tag]).map Prod.snd =
        some [MemOp.read type (h.uint32Value P) n]) ∧
    (∀ tag type v, (tag, type) ∈ fixedTags → type ≠ .intptr →
      ∃ bytes, (writeMemory P mem [h, .number (.ofInt n), v, .string tag]).2.1 =
        [MemOp.write type (h.uint32Value P) n bytes]) ∧
    (∀ tag v, tag = lit "string" ∨ tag = lit "str" →
      (writeMemory P mem [h, .number (.ofInt n), v, .string tag]).2.1 =
        [MemOp.writeBuffer (h.uint32Value P) n (v.utf8Value P) (v.utf8Value P).length]) ∧
    (∀ tag, tag = lit "string" ∨ tag = lit "str" →
      ∃ count, (readMemory P mem [h, .number (.ofInt n), .string tag]).map Prod.snd =
        some (charReads (h.uint32Value P) n count)) := by
  have hu := uint32Value_ofInt P n hlo hhi
  have hi := integerValue_ofInt P n (by omega) (by norm_num at hhi ⊢; omega)
  refine ⟨?_, ?_, ?_, ?_⟩
  · intro tag type htag
    rw [readMemory_fixed_ops P mem h _ tag type htag, hu]
  · intro tag type v htag htype
    obtain ⟨bytes, hb⟩ := writeMemory_fixed_ops P mem h (.number (.ofInt n)) v tag type htag htype
    exact ⟨bytes, by rw [hb, hu]⟩
  · intro tag v htag
    rw [writeMemory_string_ops P mem h _ v tag htag, hu]
  · intro tag htag
    obtain ⟨count, hc⟩ := readMemory_string_reads P mem h (.number (.ofInt n)) tag htag
    exact ⟨count, by rw [hc, hi]⟩

/-- Claim C10, amended, at a concrete input: a `dword` read at address 4096. -/
theorem address_below_two_pow_32_witness :
    (readMemory examplePlatform exampleMemory
      [.number (.ofInt 7), .number (.ofInt 4096), .string (lit "dword")]).map Prod.snd =
      some [MemOp.read .dword 7 4096] :=
  (address_below_two_pow_32 examplePlatform exampleMemory (.number (.ofInt 7)) 4096
    (by decide) (by decide)).1 (lit "dword") .dword (by decide)

/-- The string loop of `readMemory` leaves within 1,000,001 iterations, so
`readMemory` returns on every call. -/
theorem readMemory_returns (P : Platform) (mem : Memory) (args : List JsValue) :
    ∃ r, readMemory P mem args = some r := by
  obtain ⟨chars, count, hloop⟩ := stringLoop_reads (mem ((arg args 0).uint32Value P))
    ((arg args 1).integerValue P) 1000000 0 [] [] 1000001 (by omega) (by omega)
  rw [List.nil_append] at hloop
  suffices hsome : readMemory P mem args ≠ none from Option.ne_none_iff_exists'.mp hsome
  have hite : ∀ (c : Prop) [Decidable c] (x y : Option (Outcome × List MemOp)),
      x ≠ none → y ≠ none → (if c then x else y) ≠ none := by
    intro c _ x y hx hy
    by_cases hc : c
    · rwa [if_pos hc]
    · rwa [if_neg hc]
  unfold readMemory
  repeat' first
    | exact Option.some_ne_none _
    | apply hite
  dsimp only
  rw [hloop]
  dsimp only
  repeat' first
    | exact Option.some_ne_none _
    | apply hite

/-! ## Theorems: the string write -/

theorem writeBytes_elsewhere (mem : Memory) (handle : Nat) (address : Int) (bytes : List Nat)
    (h : Nat) (x : Int) (hout : h ≠ handle ∨ x < address ∨ address + bytes.length ≤ x) :
    mem.writeBytes handle address bytes h x = mem h x := by
  have hcond : ¬ (h = handle ∧ address ≤ x ∧ x < address + bytes.length) := by
    rintro ⟨h1, h2, h3⟩
    rcases hout with ho | ho | ho
    · exact ho h1
    · omega
    · omega
  simp only [Memory.writeBytes, if_neg hcond]

/-- Claim C11. `writeMemory` with the tag `string` (or its alias `str`) completes
silently and issues a single write, at the address given, of the raw bytes of the
string value, the byte count being the byte length of the value. Afterwards the
memory holds these bytes from the address on, and every byte outside them, those
at and after address + length in particular, is as before: no terminating zero
byte is appended. -/
theorem writeMemory_string_raw (P : Platform) (mem : Memory) (h a v : JsValue) (tag : List Nat)
    (htag : tag = lit "string" ∨ tag = lit "str") :
    (writeMemory P mem [h, a, v, .string tag]).1 = silent ∧
    (writeMemory P mem [h, a, v, .string tag]).2.1 =
      [MemOp.writeBuffer (h.uint32Value P) (a.uint32Value P) (v.utf8Value P)
        (v.utf8Value P).length] ∧
    (writeMemory P mem [h, a, v, .string tag]).2.2.readBytes (h.uint32Value P)
      (a.uint32Value P) (v.utf8Value P).length = v.utf8Value P ∧
    (∀ (h1 : Nat) (x : Int),
      h1 ≠ h.uint32Value P ∨ x < (a.uint32Value P : Int) ∨
        (a.uint32Value P : Int) + ((v.utf8Value P).length : Nat) ≤ x →
      (writeMemory P mem [h, a, v, .string tag]).2.2 h1 x = mem h1 x) := by
  have hwrite : writeMemory P mem [h, a, v, .string tag] =
      (silent, [MemOp.writeBuffer (h.uint32Value P) (a.uint32Value P) (v.utf8Value P)
          (v.utf8Value P).length],
        mem.writeBytes (h.uint32Value P) (a.uint32Value P) (v.utf8Value P)) := by
    rcases htag with rfl | rfl <;>
      simp +decide [writeMemory, arg, JsValue.isString, JsValue.utf8Value, finishWrite]
  rw [hwrite]
  refine ⟨rfl, rfl, readBytes_writeBytes _ _ _ _, ?_⟩
  intro h1 x hout
  exact writeBytes_elsewhere mem _ _ _ h1 x hout

/-- Claim C11 at a concrete input: the string `XY` written at address 4096, where the
bytes `A`, `B`, `C` and a zero byte were; the byte `C` at address 4098 is as before. -/
theorem writeMemory_string_raw_witness :
    (writeMemory examplePlatform exampleMemory
      [.number (.ofInt 7), .number (.ofInt 4096), .string (lit "XY"), .string (lit "string")]).2.1 =
      [MemOp.writeBuffer 7 4096 (lit "XY") 2] ∧
    (writeMemory examplePlatform exampleMemory
      [.number (.ofInt 7), .number (.ofInt 4096), .string (lit "XY"), .string (lit "string")]).2.2
        7 4098 = exampleMemory 7 4098 :=
  have hw := writeMemory_string_raw examplePlatform exampleMemory (.number (.ofInt 7))
    (.number (.ofInt 4096)) (.string (lit "XY")) (lit "string") (Or.inl rfl)
  ⟨hw.2.1, hw.2.2.2 7 4098 (by decide)⟩

/-! ## Theorems: `getProcesses` -/

/-- Claim C12 fails as stated: when the enumeration fails, the callback form hands a
list to the callback next to the error message: the empty array when the
enumeration returned no entry, and an array of the entries it returned otherwise. -/
theorem getProcesses_callback_counterexample :
    getProcesses examplePlatform ([], some "method failed to take snapshot of the process") [.function 1] =
      callBack (.function 1)
        [some (.string (lit "method failed to take snapshot of the process")),
          some (.array [])] ∧
    getProcesses examplePlatform
        ([exampleProcess], some "method failed to take snapshot of the process")
        [.function 1] =
      callBack (.function 1)
        [some (.string (lit "method failed to take snapshot of the process")),
          some (.array [processObject examplePlatform exampleProcess])] := by
  constructor <;> rfl

/-- Claim C12, amended. When the enumeration fails with a non-empty error message:
without callback, `getProcesses` throws the message and sets no return value, so
the caller receives no list; with a callback, it throws nothing, sets no return
value and calls the callback with the message as first argument and, as second
argument, the array of the entries that the enumeration returned (the empty array
when it returned none). -/
theorem getProcesses_enumeration_failed (P : Platform) (entries : List ProcessEntry)
    (message : String) (hmsg : message ≠ "") :
    getProcesses P (entries, some message) [] = throwTypeError message ∧
    (getProcesses P (entries, some message) []).returned = none ∧
    (∀ f, getProcesses P (entries, some message) [.function f] =
      callBack (.function f)
        [some (.string (lit message)), some (.array (entries.map (processObject P)))]) := by
  refine ⟨?_, ?_, ?_⟩
  · simp [getProcesses, setError, hmsg]
  · simp [getProcesses, setError, hmsg, throwTypeError]
  · intro f
    simp [getProcesses, setError, arg, JsValue.isFunction]

/-- Claim C12, amended, at a concrete input: an enumeration that fails with the
message "method failed to take snapshot of the process" and returns no entry. -/
theorem getProcesses_enumeration_failed_witness :
    getProcesses examplePlatform ([], some "method failed to take snapshot of the process") [] =
      throwTypeError "method failed to take snapshot of the process" ∧
    (getProcesses examplePlatform ([], some "method failed to take snapshot of the process") []).returned =
      none :=
  have hw := getProcesses_enumeration_failed examplePlatform []
    "method failed to take snapshot of the process" (by decide)
  ⟨hw.1, hw.2.1⟩

/-! ## Theorems: the argument checks of `readMemory` and `writeMemory` -/

/-- Claim C13, evaluated at failing inputs. A call whose handle is `undefined`, not a
number, passes the argument check of `readMemory` and of `writeMemory`, which
rejects a call only when the handle, the address and the tag are all three of the
wrong kind: the `dword` is read, and the `int` written, at address 4096 of the
process of handle 0, and nothing is thrown. So does a call whose address is a
string. -/
theorem argument_check_passes_wrong_kinds :
    readMemory examplePlatform exampleMemory
        [.undefined, .number (.ofInt 4096), .string (lit "dword")] =
      some (returnValue (.number (.ofInt 4407873)), [MemOp.read .dword 0 4096]) ∧
    writeMemory examplePlatform exampleMemory
        [.undefined, .number (.ofInt 4096), .number (.ofInt 1), .string (lit "int")] =
      (silent, [MemOp.write .int 0 4096 [1, 0, 0, 0]],
        exampleMemory.writeBytes 0 4096 [1, 0, 0, 0]) ∧
    (readMemory examplePlatform exampleMemory
        [.number (.ofInt 7), .string (lit "abc"), .string (lit "int")]).map Prod.snd =
      some [MemOp.read .int 7 0] := by
  refine ⟨?_, ?_, ?_⟩ <;> rfl

/-! ## Theorems: the argument count of `writeMemory` -/

theorem writeMemory_wrong_count (P : Platform) (mem : Memory) (args : List JsValue)
    (hlen : args.length ≠ 4) :
    writeMemory P mem args = (throwTypeError "requires 4 arguments", [], mem) := by
  simp [writeMemory, hlen]

theorem writeMemory_never_calls (P : Platform) (mem : Memory) (args : List JsValue) :
    (writeMemory P mem args).1.called = none := by
  by_cases hlen : args.length = 4
  · have hfin : ∀ e, finishWrite args e = silent := by
      intro e
      simp [finishWrite, hlen]
    have hfive : ¬ args.length = 5 := by omega
    have hite : ∀ (c : Prop) [Decidable c] (x y : Outcome × List MemOp × Memory),
        x.1.called = none → y.1.called = none → (if c then x else y).1.called = none := by
      intro c _ x y hx hy
      by_cases hc : c
      · rwa [if_pos hc]
      · rwa [if_neg hc]
    simp only [writeMemory, hfin, hfive, if_false]
    repeat' first
      | apply hite
      | rfl
  · rw [writeMemory_wrong_count P mem args hlen]
    rfl

theorem writeMemory_unrecognized (P : Platform) (mem : Memory) (h a v t : JsValue)
    (hkind : h.isNumber = true ∨ a.isNumber = true ∨ t.isString = true)
    (htag : cstr (t.utf8Value P) ∉ writeTags) :
    writeMemory P mem [h, a, v, t] = (throwTypeError "unexpected data type", [], mem) := by
  simp only [writeTags, List.mem_cons, List.mem_singleton, List.mem_nil_iff, not_or,
    or_false] at htag
  obtain ⟨h1, h2, h3, h4, h5, h6, h7, h8, h9, h10, h11, h12, h13⟩ := htag
  have hcheck : (!h.isNumber && !a.isNumber && !t.isString) = false := by
    rcases hkind with hk | hk | hk <;> simp [hk]
  simp [writeMemory, arg, hcheck, h1, h2, h3, h4, h5, h6, h7, h8, h9, h10, h11, h12, h13]

/-- Claim C14. `writeMemory` writes only when called with exactly four arguments:
a call with any other number of arguments, five included, throws "requires 4
arguments", calls no memory primitive and leaves the memory as it is. No call of
`writeMemory` invokes a callback, and a call of four arguments that passes the
argument check with a tag that the dispatch does not know throws "unexpected data
type". -/
theorem writeMemory_four_arguments (P : Platform) (mem : Memory) :
    (∀ args : List JsValue, args.length ≠ 4 →
      writeMemory P mem args = (throwTypeError "requires 4 arguments", [], mem)) ∧
    (∀ args : List JsValue, (writeMemory P mem args).2.1 ≠ [] → args.length = 4) ∧
    (∀ args : List JsValue, (writeMemory P mem args).1.called = none) ∧
    (∀ h a v t : JsValue, h.isNumber = true ∨ a.isNumber = true ∨ t.isString = true →
      cstr (t.utf8Value P) ∉ writeTags →
      writeMemory P mem [h, a, v, t] = (throwTypeError "unexpected data type", [], mem)) := by
  refine ⟨?_, ?_, ?_, ?_⟩
  · exact fun args hlen => writeMemory_wrong_count P mem args hlen
  · intro args hops
    by_contra hlen
    rw [writeMemory_wrong_count P mem args hlen] at hops
    exact hops rfl
  · exact fun args => writeMemory_never_calls P mem args
  · exact fun h a v t hkind htag => writeMemory_unrecognized P mem h a v t hkind htag

/-- Claim C14 at concrete inputs: a call with a trailing callback, and a call of four
arguments with the tag `short`. -/
theorem writeMemory_four_arguments_witness :
    writeMemory examplePlatform exampleMemory
        [.number (.ofInt 7), .number (.ofInt 4096), .number (.ofInt 1), .string (lit "int"),
          .function 1] =
      (throwTypeError "requires 4 arguments", [], exampleMemory) ∧
    writeMemory examplePlatform exampleMemory
        [.number (.ofInt 7), .number (.ofInt 4096), .number (.ofInt 1), .string (lit "short")] =
      (throwTypeError "unexpected data type", [], exampleMemory) :=
  have hw := writeMemory_four_arguments examplePlatform exampleMemory
  ⟨hw.1 _ (by decide), hw.2.2.2 _ _ _ _ (Or.inl rfl) (by decide)⟩

end MemoryJs
